import Mathlib

/-!
Verification of the mcphub capability-aggregation hub against its
natural-language specification.

The development shallowly embeds the TypeScript sources:

* `src/services/openApiGeneratorService.ts` — generation of the OpenAPI
  view of the aggregated tool registry (`generateOpenAPISpec`,
  `getAvailableServers`);
* `src/controllers/openApiController.ts` — the OpenAPI tool-execution
  endpoint (`executeToolViaOpenAPI`);
* `src/dao/ServerDao.ts`, `src/dao/GroupDao.ts`, `src/dao/UserDao.ts`,
  `src/dao/SystemConfigDao.ts`, `src/dao/UserConfigDao.ts` — the JSON
  settings data-access layer;
* `DaoConfigService` — assembly and per-user filtering of the settings.

JavaScript objects keyed by strings are modelled as insertion-ordered
association lists (`List (String × _)`); `Object.entries` preserves that
order, and keys of an object are unique, so the round trip between the
object and its entries list is the identity.  Optional (possibly
`undefined`) fields are modelled as `Option`.  File I/O performed by
`loadSettings`/`saveSettings` is modelled as explicit state passing of the
stored settings value.
-/

/-- Merge of one field under the JavaScript object-spread
`\x7b...existing, ...updates\x7d`: a field present in `updates` wins,
an absent field keeps the existing value. -/
def mergeField {α : Type} : Option α → Option α → Option α
  | some v, _ => some v
  | none, e => e

/-- Lookup in an association list modelling a JavaScript `Map`/object:
the value of the first entry with the given key. -/
def lookupAssoc {α : Type} (m : List (String × α)) (k : String) : Option α :=
  (m.find? (fun p => p.1 == k)).map (fun p => p.2)

/-- A tool as exposed by a server entry (`Tool` in `src/types`): the
`enabled` field is an optional boolean, and the visibility test used
throughout the source is `tool.enabled !== false`. -/
structure Tool where
  name : String
  enabled : Option Bool
  deriving DecidableEq

/-- One entry of `getServersInfo()`: server name, connectivity status
string (compared against the literal `connected`), and its tool list. -/
structure ServerInfo where
  name : String
  status : String
  tools : List Tool
  deriving DecidableEq

/-- The `tools` field of a group member: `all` or an explicit allow-list
of local tool names (`string[] | 'all'` in the source). -/
inductive GroupServerTools where
  | all : GroupServerTools
  | list (names : List String) : GroupServerTools
  deriving DecidableEq

/-- A member of a group's `servers` array: either a bare server name or
an object `\x7bname, tools?\x7d`. -/
inductive GroupServer where
  | bare (name : String) : GroupServer
  | withConfig (name : String) (tools : Option GroupServerTools) : GroupServer
  deriving DecidableEq

/-- The server name of a group member. -/
def memberName : GroupServer → String
  | GroupServer.bare n => n
  | GroupServer.withConfig n _ => n

/-- The tool filter contributed by a group member, as computed by
`generateOpenAPISpec`: a bare name means `all`, and an object member
contributes `server.tools || 'all'`. -/
def memberFilter : GroupServer → GroupServerTools
  | GroupServer.bare _ => GroupServerTools.all
  | GroupServer.withConfig _ t => t.getD GroupServerTools.all

/-- A group (`IGroup` in `src/types`). -/
structure IGroup where
  id : String
  name : String
  description : Option String := none
  servers : List GroupServer := []
  owner : Option String := none
  deriving DecidableEq

/-- Modelled from the spec: `getGroupByIdOrName` lives in
`src/services/groupService.ts`, which is not among the provided sources.
Groups are identified by their unique id or referenced by name
(spec: a group is "a named set of `\x7bserverName, toolFilter\x7d` pairs";
the OpenAPI layer resolves its `groupFilter` through this lookup), so the
model returns the first group whose id or name matches the key. -/
def getGroupByIdOrName (groups : List IGroup) (key : String) : Option IGroup :=
  groups.find? (fun g => g.id == key || g.name == key)

/-- `Map.set` on an association list: overwrite the first entry with the
key, otherwise append. -/
def assocSet {α : Type} (m : List (String × α)) (k : String) (v : α) : List (String × α) :=
  match m with
  | [] => [(k, v)]
  | (k₁, v₁) :: rest => if k₁ == k then (k₁, v) :: rest else (k₁, v₁) :: assocSet rest k v

/-- The `groupConfig` map built by `generateOpenAPISpec` (lines 174-189):
each member of the group's `servers` array sets its name to its tool
filter; later members override earlier ones with the same name. -/
def buildGroupConfig (members : List GroupServer) : List (String × GroupServerTools) :=
  members.foldl (fun acc m => assocSet acc (memberName m) (memberFilter m)) []

/-- The `groupServerNames` array collected alongside `groupConfig`. -/
def groupServerNames (g : IGroup) : List String :=
  g.servers.map memberName

/-- Removal of the first occurrence of `pat` from a character list —
the behaviour of the JavaScript `String.replace(pat, '')` with a string
pattern, which replaces only the first occurrence, wherever it is. -/
def removeFirstAux : List Char → List Char → List Char
  | [], _ => []
  | c :: rest, pat =>
    if pat.isPrefixOf (c :: rest) then (c :: rest).drop pat.length
    else c :: removeFirstAux rest pat

/-- `s.replace(pat, '')` in JavaScript: remove the first occurrence of
`pat` from `s` (used by `generateOpenAPISpec` line 215 as
`tool.name.replace(serverInfo.name + '-', '')`). -/
def removeFirstOcc (s pat : String) : String :=
  String.mk (removeFirstAux s.data pat.data)

/-- Options of `generateOpenAPISpec` (`OpenAPIGenerationOptions`),
restricted to the fields that influence which tools are exposed. -/
structure GenOptions where
  includeDisabledTools : Bool := false
  groupFilter : Option String := none
  serverFilter : Option (List String) := none
  deriving DecidableEq

/-- The predicate of the first server filter of `generateOpenAPISpec`
(lines 167-171): the server is connected and passes the optional
`serverFilter` list. -/
def serverPass (opts : GenOptions) (s : ServerInfo) : Bool :=
  s.status == "connected" &&
  (match opts.serverFilter with
   | none => true
   | some sf => sf.contains s.name)

/-- First server filter of `generateOpenAPISpec` (lines 167-171). -/
def filterServers (servers : List ServerInfo) (opts : GenOptions) : List ServerInfo :=
  servers.filter (serverPass opts)

/-- Per-server tool selection of `generateOpenAPISpec` (lines 201-218):
drop disabled tools unless `includeDisabledTools`, then, when a group
filter is in effect and the group configuration has an explicit
allow-list for this server, keep the tools whose name with the first
occurrence of `<serverName>-` removed is in the allow-list. -/
def serverContribution (includeDisabled grouped : Bool)
    (cfg : List (String × GroupServerTools)) (s : ServerInfo) : List Tool :=
  let tools := if includeDisabled then s.tools
               else s.tools.filter (fun t => !(t.enabled == some false))
  if grouped then
    match lookupAssoc cfg s.name with
    | some (GroupServerTools.list allowed) =>
        tools.filter (fun t => allowed.contains (removeFirstOcc t.name (s.name ++ "-")))
    | _ => tools
  else tools

/-- The `allTools` accumulation loop of `generateOpenAPISpec`
(lines 198-223): every selected tool is pushed tagged with its owning
server's name. -/
def emitServers (includeDisabled grouped : Bool)
    (cfg : List (String × GroupServerTools)) (l : List ServerInfo) : List (String × Tool) :=
  l.flatMap (fun s => (serverContribution includeDisabled grouped cfg s).map (fun t => (s.name, t)))

/-- JavaScript truthiness of an optional string option: the empty string
is falsy, so `if (options.groupFilter)` treats it as absent. -/
def jsTruthyStr : Option String → Option String
  | some s => if s == "" then none else some s
  | none => none

/-- The (serverName, tool) pairs whose operations appear in the document
returned by `generateOpenAPISpec`: connected servers are filtered, the
optional group filter is resolved (a missing group empties the server
list, line 194), group members restrict the server list and their tool
filters restrict each server's tools. -/
def generateAllTools (servers : List ServerInfo) (groups : List IGroup)
    (opts : GenOptions) : List (String × Tool) :=
  let filtered := filterServers servers opts
  match jsTruthyStr opts.groupFilter with
  | none => emitServers opts.includeDisabledTools false [] filtered
  | some gf =>
    match getGroupByIdOrName groups gf with
    | none => []
    | some g =>
        emitServers opts.includeDisabledTools true (buildGroupConfig g.servers)
          (filtered.filter (fun s => (groupServerNames g).contains s.name))

/-- The `operationId` of a generated operation
(`generateOperationFromTool`, line 96). -/
def toolOperationId (serverName toolName : String) : String :=
  serverName ++ "_" ++ toolName

/-- The path under which a tool is exposed (`generateOpenAPISpec`,
line 233). -/
def toolPathName (serverName toolName : String) : String :=
  "/tools/" ++ serverName ++ "/" ++ toolName

/-- `getAvailableServers` (lines 327-330): names of connected servers. -/
def getAvailableServers (servers : List ServerInfo) : List String :=
  (servers.filter (fun s => s.status == "connected")).map (fun s => s.name)

/-- The tools contributed under a given server name in the generated
pair list. -/
def contributedTools (out : List (String × Tool)) (n : String) : List Tool :=
  (out.filter (fun p => p.1 == n)).map (fun p => p.2)

/-- The local name of a tool as the specification words it: the tool's
name with the `<serverName>-` prefix removed (refinement definition
following the spec, to be compared with the source's
first-occurrence `String.replace`). -/
def specLocalName (toolName serverName : String) : String :=
  let pat := (serverName ++ "-").data
  if pat.isPrefixOf toolName.data then String.mk (toolName.data.drop pat.length)
  else toolName

-- Helper lemmas about strings and separators.

theorem strExt {s t : String} (h : s.data = t.data) : s = t := by
  cases s
  cases t
  exact congrArg String.mk h

theorem strDataAppend (s t : String) : (s ++ t).data = s.data ++ t.data := rfl

theorem sepSplit_inj (sep : Char) :
    ∀ (a b c d : List Char), sep ∉ a → sep ∉ c →
      a ++ sep :: b = c ++ sep :: d → a = c ∧ b = d := by
  intro a
  induction a with
  | nil =>
    intro b c d _ hc h
    cases c with
    | nil =>
      refine ⟨rfl, ?_⟩
      simpa using h
    | cons y ys =>
      simp only [List.nil_append, List.cons_append, List.cons.injEq] at h
      exact absurd (h.1 ▸ List.mem_cons_self y ys) hc
  | cons x xs ih =>
    intro b c d ha hc h
    cases c with
    | nil =>
      simp only [List.nil_append, List.cons_append, List.cons.injEq] at h
      exact absurd (h.1 ▸ List.mem_cons_self x xs) ha
    | cons y ys =>
      simp only [List.cons_append, List.cons.injEq] at h
      have hxs : sep ∉ xs := fun hm => ha (List.mem_cons_of_mem x hm)
      have hys : sep ∉ ys := fun hm => hc (List.mem_cons_of_mem y hm)
      obtain ⟨h₁, h₂⟩ := ih b ys d hxs hys h.2
      exact ⟨by rw [h.1, h₁], h₂⟩

theorem toolOperationId_data (s t : String) :
    (toolOperationId s t).data = s.data ++ '_' :: t.data := by
  show (s ++ "_" ++ t).data = _
  rw [strDataAppend, strDataAppend]
  simp

theorem toolPathName_data (s t : String) :
    (toolPathName s t).data = ("/tools/" : String).data ++ (s.data ++ '/' :: t.data) := by
  show ("/tools/" ++ s ++ "/" ++ t).data = _
  rw [strDataAppend, strDataAppend, strDataAppend]
  simp

/-- C1 is refuted as stated: the operationId map and the path map are
not injective on all inputs.  Server `a_b` with tool `c` and server `a`
with tool `b_c` are distinct pairs with the same operationId, and server
`a/b` with tool `c` collides with server `a` with tool `b/c` on the
path. -/
theorem spec_c1_counterexample :
    toolOperationId "a_b" "c" = toolOperationId "a" "b_c" ∧
    toolPathName "a/b" "c" = toolPathName "a" "b/c" ∧
    ¬(("a_b" : String) = "a" ∧ ("c" : String) = "b_c") ∧
    ¬(("a/b" : String) = "a" ∧ ("c" : String) = "b/c") := by
  refine ⟨rfl, rfl, ?_, ?_⟩ <;> decide

/-- C1 (amended): provided server names contain neither the underscore
nor the slash separator, the namespaced keys produced by
`generateOpenAPISpec` — the operationId `<serverName>_<toolName>` and the
path `/tools/<serverName>/<toolName>` — are injective in the
(server name, tool name) pair, so identically-named local tools of two
distinct servers never collide. -/
theorem spec_c1_theorem (s₁ t₁ s₂ t₂ : String)
    (hu₁ : ('_' : Char) ∉ s₁.data) (hu₂ : ('_' : Char) ∉ s₂.data)
    (hs₁ : ('/' : Char) ∉ s₁.data) (hs₂ : ('/' : Char) ∉ s₂.data)
    (hne : ¬(s₁ = s₂ ∧ t₁ = t₂)) :
    toolOperationId s₁ t₁ ≠ toolOperationId s₂ t₂ ∧
    toolPathName s₁ t₁ ≠ toolPathName s₂ t₂ := by
  constructor
  · intro h
    have hd := congrArg String.data h
    rw [toolOperationId_data, toolOperationId_data] at hd
    obtain ⟨h₁, h₂⟩ := sepSplit_inj '_' s₁.data t₁.data s₂.data t₂.data hu₁ hu₂ hd
    exact hne ⟨strExt h₁, strExt h₂⟩
  · intro h
    have hd := congrArg String.data h
    rw [toolPathName_data, toolPathName_data] at hd
    have hd₂ := List.append_cancel_left hd
    obtain ⟨h₁, h₂⟩ := sepSplit_inj '/' s₁.data t₁.data s₂.data t₂.data hs₁ hs₂ hd₂
    exact hne ⟨strExt h₁, strExt h₂⟩

/-- Witness for the amended C1 at concrete separator-free server names. -/
theorem spec_c1_witness :
    toolOperationId "alpha" "t" ≠ toolOperationId "beta" "t" ∧
    toolPathName "alpha" "t" ≠ toolPathName "beta" "t" :=
  spec_c1_theorem "alpha" "t" "beta" "t" (by decide) (by decide) (by decide) (by decide)
    (by decide)

-- Characterization lemmas for the generator pipeline.

/-- The allow-list predicate applied to a tool when a group filter is in
effect for the owning server. -/
def contribAllowPred (grouped : Bool) (cfg : List (String × GroupServerTools))
    (n : String) (u : Tool) : Bool :=
  if grouped then
    match lookupAssoc cfg n with
    | some (GroupServerTools.list allowed) =>
        allowed.contains (removeFirstOcc u.name (n ++ "-"))
    | _ => true
  else true

theorem mem_serverContribution (inc grp : Bool) (cfg : List (String × GroupServerTools))
    (s : ServerInfo) (u : Tool) :
    u ∈ serverContribution inc grp cfg s ↔
      u ∈ s.tools ∧ (inc || !(u.enabled == some false)) = true ∧
        contribAllowPred grp cfg s.name u = true := by
  unfold serverContribution contribAllowPred
  cases grp with
  | false =>
    cases inc with
    | false => simp [List.mem_filter]
    | true => simp
  | true =>
    cases hl : lookupAssoc cfg s.name with
    | none =>
      cases inc with
      | false => simp [List.mem_filter]
      | true => simp
    | some tf =>
      cases tf with
      | all =>
        cases inc with
        | false => simp [List.mem_filter]
        | true => simp
      | list allowed =>
        cases inc with
        | false =>
          simp [List.mem_filter, and_assoc]
          exact fun _ => and_comm
        | true => simp [List.mem_filter]

theorem serverContribution_subset (inc grp : Bool) (cfg : List (String × GroupServerTools))
    (s : ServerInfo) (u : Tool) (h : u ∈ serverContribution inc grp cfg s) : u ∈ s.tools :=
  ((mem_serverContribution inc grp cfg s u).1 h).1

theorem mem_emitServers (inc grp : Bool) (cfg : List (String × GroupServerTools))
    (l : List ServerInfo) (p : String × Tool) :
    p ∈ emitServers inc grp cfg l ↔
      ∃ s, s ∈ l ∧ s.name = p.1 ∧ p.2 ∈ serverContribution inc grp cfg s := by
  unfold emitServers
  simp only [List.mem_flatMap, List.mem_map]
  constructor
  · rintro ⟨s, hs, t, ht, hpt⟩
    exact ⟨s, hs, by rw [← hpt], by rw [← hpt]; exact ht⟩
  · rintro ⟨s, hs, hn, ht⟩
    exact ⟨s, hs, p.2, ht, by rw [hn]⟩

theorem mem_filterServers (servers : List ServerInfo) (opts : GenOptions) (s : ServerInfo) :
    s ∈ filterServers servers opts ↔
      s ∈ servers ∧ s.status = "connected" ∧
        (∀ sf, opts.serverFilter = some sf → sf.contains s.name = true) := by
  unfold filterServers serverPass
  cases hsf : opts.serverFilter with
  | none => simp [List.mem_filter]
  | some sf => simp [List.mem_filter, and_assoc]

-- Equation lemmas for the three branches of `generateAllTools`.

theorem generateAllTools_eq_nogroup (servers : List ServerInfo) (groups : List IGroup)
    (opts : GenOptions) (h : jsTruthyStr opts.groupFilter = none) :
    generateAllTools servers groups opts =
      emitServers opts.includeDisabledTools false [] (filterServers servers opts) := by
  simp only [generateAllTools, h]

theorem generateAllTools_eq_groupMissing (servers : List ServerInfo) (groups : List IGroup)
    (opts : GenOptions) (gf : String) (h₁ : jsTruthyStr opts.groupFilter = some gf)
    (h₂ : getGroupByIdOrName groups gf = none) :
    generateAllTools servers groups opts = [] := by
  simp only [generateAllTools, h₁, h₂]

theorem generateAllTools_eq_group (servers : List ServerInfo) (groups : List IGroup)
    (opts : GenOptions) (gf : String) (g : IGroup)
    (h₁ : jsTruthyStr opts.groupFilter = some gf)
    (h₂ : getGroupByIdOrName groups gf = some g) :
    generateAllTools servers groups opts =
      emitServers opts.includeDisabledTools true (buildGroupConfig g.servers)
        ((filterServers servers opts).filter
          (fun s => (groupServerNames g).contains s.name)) := by
  simp only [generateAllTools, h₁, h₂]

/-- Every generated (serverName, tool) pair comes from a server that
passed the connectivity/server filter, and the tool belongs to that
server's tool list. -/
theorem generateAllTools_source (servers : List ServerInfo) (groups : List IGroup)
    (opts : GenOptions) (p : String × Tool) (hp : p ∈ generateAllTools servers groups opts) :
    ∃ s, s ∈ filterServers servers opts ∧ s.name = p.1 ∧ p.2 ∈ s.tools := by
  cases hgf : jsTruthyStr opts.groupFilter with
  | none =>
    rw [generateAllTools_eq_nogroup servers groups opts hgf] at hp
    obtain ⟨s, hs, hn, ht⟩ := (mem_emitServers _ _ _ _ _).1 hp
    exact ⟨s, hs, hn, serverContribution_subset _ _ _ _ _ ht⟩
  | some gf =>
    cases hg : getGroupByIdOrName groups gf with
    | none =>
      rw [generateAllTools_eq_groupMissing servers groups opts gf hgf hg] at hp
      exact absurd hp (List.not_mem_nil p)
    | some g =>
      rw [generateAllTools_eq_group servers groups opts gf g hgf hg] at hp
      obtain ⟨s, hs, hn, ht⟩ := (mem_emitServers _ _ _ _ _).1 hp
      exact ⟨s, (List.mem_filter.1 hs).1, hn, serverContribution_subset _ _ _ _ _ ht⟩

/-- C4: with a group filter set, an unresolvable group reference yields
an empty tool list rather than an error, and a group member naming a
server that is not connected, or a capability absent from that server,
is silently skipped: every generated pair names a member server that is
connected and a tool that the server actually has. -/
theorem spec_c4_theorem (servers : List ServerInfo) (groups : List IGroup)
    (opts : GenOptions) (gf : String) (hgf : jsTruthyStr opts.groupFilter = some gf) :
    (getGroupByIdOrName groups gf = none → generateAllTools servers groups opts = []) ∧
    (∀ g, getGroupByIdOrName groups gf = some g →
      ∀ p, p ∈ generateAllTools servers groups opts →
        (groupServerNames g).contains p.1 = true ∧
        ∃ s, s ∈ servers ∧ s.name = p.1 ∧ s.status = "connected" ∧ p.2 ∈ s.tools) := by
  constructor
  · intro hnone
    exact generateAllTools_eq_groupMissing servers groups opts gf hgf hnone
  · intro g hg p hp
    rw [generateAllTools_eq_group servers groups opts gf g hgf hg] at hp
    obtain ⟨s, hs, hn, ht⟩ := (mem_emitServers _ _ _ _ _).1 hp
    have hs₂ := List.mem_filter.1 hs
    have hsrc := (mem_filterServers servers opts s).1 hs₂.1
    refine ⟨by rw [← hn]; exact hs₂.2, s, hsrc.1, hn, hsrc.2.1,
      serverContribution_subset _ _ _ _ _ ht⟩

/-- Witness for C4: a group filter naming no group empties the document,
and with a found group every emitted pair is a connected member server's
own tool. -/
theorem spec_c4_witness :
    (getGroupByIdOrName ([] : List IGroup) "g" = none →
      generateAllTools [ServerInfo.mk "a" "connected" [Tool.mk "a-t" none]] []
        (GenOptions.mk false (some "g") none) = []) ∧
    (∀ g, getGroupByIdOrName ([] : List IGroup) "g" = some g →
      ∀ p, p ∈ generateAllTools [ServerInfo.mk "a" "connected" [Tool.mk "a-t" none]] []
          (GenOptions.mk false (some "g") none) →
        (groupServerNames g).contains p.1 = true ∧
        ∃ s, s ∈ [ServerInfo.mk "a" "connected" [Tool.mk "a-t" none]] ∧ s.name = p.1 ∧
          s.status = "connected" ∧ p.2 ∈ s.tools) :=
  spec_c4_theorem [ServerInfo.mk "a" "connected" [Tool.mk "a-t" none]] [] 
    (GenOptions.mk false (some "g") none) "g" (by decide)

/-- C5: every generated tool path belongs to a connected server passing
the optional server filter, and `getAvailableServers` returns exactly the
names of the connected servers. -/
theorem spec_c5_theorem (servers : List ServerInfo) (groups : List IGroup)
    (opts : GenOptions) :
    (∀ p, p ∈ generateAllTools servers groups opts →
      ∃ s, s ∈ servers ∧ s.name = p.1 ∧ s.status = "connected" ∧
        (∀ sf, opts.serverFilter = some sf → sf.contains s.name = true)) ∧
    (∀ n, n ∈ getAvailableServers servers ↔
      ∃ s, s ∈ servers ∧ s.name = n ∧ s.status = "connected") := by
  constructor
  · intro p hp
    obtain ⟨s, hs, hn, _⟩ := generateAllTools_source servers groups opts p hp
    have h := (mem_filterServers servers opts s).1 hs
    exact ⟨s, h.1, hn, h.2.1, h.2.2⟩
  · intro n
    unfold getAvailableServers
    simp only [List.mem_map, List.mem_filter]
    constructor
    · rintro ⟨s, ⟨hs, hst⟩, hn⟩
      exact ⟨s, hs, hn, by simpa using hst⟩
    · rintro ⟨s, hs, hn, hst⟩
      exact ⟨s, ⟨hs, by simp [hst]⟩, hn⟩

/-- Witness for C5 at a concrete pair of servers, one connected and one
failed. -/
theorem spec_c5_witness :
    (∃ s, s ∈ [ServerInfo.mk "a" "connected" [Tool.mk "a-t" none],
               ServerInfo.mk "b" "disconnected" [Tool.mk "b-t" none]] ∧
      s.name = (("a", Tool.mk "a-t" none) : String × Tool).1 ∧ s.status = "connected" ∧
      (∀ sf, (GenOptions.mk false none none).serverFilter = some sf →
        sf.contains s.name = true)) ∧
    ("a" ∈ getAvailableServers [ServerInfo.mk "a" "connected" [Tool.mk "a-t" none],
               ServerInfo.mk "b" "disconnected" [Tool.mk "b-t" none]] ↔
      ∃ s, s ∈ [ServerInfo.mk "a" "connected" [Tool.mk "a-t" none],
               ServerInfo.mk "b" "disconnected" [Tool.mk "b-t" none]] ∧
        s.name = "a" ∧ s.status = "connected") :=
  ⟨(spec_c5_theorem [ServerInfo.mk "a" "connected" [Tool.mk "a-t" none],
      ServerInfo.mk "b" "disconnected" [Tool.mk "b-t" none]] [] (GenOptions.mk false none none)).1
      ("a", Tool.mk "a-t" none) (by decide),
   (spec_c5_theorem [ServerInfo.mk "a" "connected" [Tool.mk "a-t" none],
      ServerInfo.mk "b" "disconnected" [Tool.mk "b-t" none]] [] (GenOptions.mk false none none)).2
      "a"⟩

-- Association-list and filter lemmas used for the group-filter claims.

theorem lookupAssoc_cons {α : Type} (a : String) (b : α) (rest : List (String × α)) (n : String) :
    lookupAssoc ((a, b) :: rest) n = if a == n then some b else lookupAssoc rest n := by
  cases h : a == n with
  | true =>
    rw [lookupAssoc, List.find?_cons_of_pos _ (by simpa using h)]
    simp [h]
  | false =>
    rw [lookupAssoc, List.find?_cons_of_neg _ (by simpa using h)]
    simp [h, lookupAssoc]

theorem lookupAssoc_assocSet_isSome {α : Type} (m : List (String × α)) (k : String) (v : α)
    (n : String) :
    (lookupAssoc (assocSet m k v) n).isSome = ((k == n) || (lookupAssoc m n).isSome) := by
  induction m with
  | nil =>
    rw [assocSet, lookupAssoc_cons]
    cases h : k == n with
    | true => simp [lookupAssoc]
    | false => simp [lookupAssoc]
  | cons p rest ih =>
    obtain ⟨k₁, v₁⟩ := p
    rw [assocSet]
    cases hk : k₁ == k with
    | true =>
      have hk₁ : k₁ = k := eq_of_beq hk
      subst hk₁
      rw [if_pos rfl, lookupAssoc_cons, lookupAssoc_cons]
      cases hn : k₁ == n <;> simp
    | false =>
      rw [if_neg (by simp [hk]), lookupAssoc_cons, lookupAssoc_cons]
      cases hn : k₁ == n with
      | true =>
        have hn₁ : k₁ = n := eq_of_beq hn
        subst hn₁
        have : (k == k₁) = false := by
          cases hkk : k == k₁ with
          | true => exact absurd (by rw [eq_of_beq hkk] at hk; exact hk) (by simp)
          | false => rfl
        simp [this]
      | false => simp [ih]

theorem buildGroupConfig_foldl_isSome :
    ∀ (ms : List GroupServer) (acc : List (String × GroupServerTools)) (n : String),
      (lookupAssoc (ms.foldl (fun a m => assocSet a (memberName m) (memberFilter m)) acc) n).isSome
        = ((lookupAssoc acc n).isSome || ms.any (fun m => memberName m == n)) := by
  intro ms
  induction ms with
  | nil => simp
  | cons m rest ih =>
    intro acc n
    rw [List.foldl_cons, ih, List.any_cons, lookupAssoc_assocSet_isSome]
    cases h₁ : memberName m == n <;> cases h₂ : (lookupAssoc acc n).isSome <;> simp [h₁, h₂]

/-- A server with an entry in the group configuration is one of the
group's member names. -/
theorem buildGroupConfig_contains (members : List GroupServer) (n : String)
    (tf : GroupServerTools) (h : lookupAssoc (buildGroupConfig members) n = some tf) :
    (members.map memberName).contains n = true := by
  have hs : (lookupAssoc (buildGroupConfig members) n).isSome = true := by rw [h]; rfl
  rw [buildGroupConfig, buildGroupConfig_foldl_isSome] at hs
  simp only [lookupAssoc, List.find?_nil, Option.map_none', Option.isSome_none,
    Bool.false_or] at hs
  obtain ⟨m, hm, hbeq⟩ := List.any_eq_true.1 hs
  exact List.elem_eq_true_of_mem (List.mem_map.2 ⟨m, hm, eq_of_beq hbeq⟩)

theorem filter_swap {α : Type} (p q : α → Bool) (l : List α) :
    (l.filter p).filter q = (l.filter q).filter p := by
  induction l with
  | nil => rfl
  | cons a rest ih => cases hp : p a <;> cases hq : q a <;> simp [List.filter_cons, hp, hq, ih]

theorem filter_merge {α : Type} (p q : α → Bool) (l : List α) :
    (l.filter p).filter q = l.filter (fun a => p a && q a) := by
  induction l with
  | nil => rfl
  | cons a rest ih => cases hp : p a <;> cases hq : q a <;> simp [List.filter_cons, hp, hq, ih]

theorem contributedTools_append (a b : List (String × Tool)) (n : String) :
    contributedTools (a ++ b) n = contributedTools a n ++ contributedTools b n := by
  simp [contributedTools, List.filter_append]

theorem contributedTools_tagged (ts : List Tool) (m n : String) :
    contributedTools (ts.map (fun t => (m, t))) n = if m == n then ts else [] := by
  simp only [contributedTools]
  cases h : m == n with
  | true =>
    rw [List.filter_eq_self.2]
    · simp
    · intro p hp
      obtain ⟨t, ht, rfl⟩ := List.mem_map.1 hp
      simpa using h
  | false =>
    rw [List.filter_eq_nil_iff.2]
    · simp
    · intro p hp
      obtain ⟨t, ht, rfl⟩ := List.mem_map.1 hp
      simpa using h

/-- The tools contributed under one server name by the accumulation
loop: exactly the contributions of the servers bearing that name. -/
theorem contributedTools_emit (inc grp : Bool) (cfg : List (String × GroupServerTools))
    (l : List ServerInfo) (n : String) :
    contributedTools (emitServers inc grp cfg l) n
      = (l.filter (fun s => s.name == n)).flatMap (serverContribution inc grp cfg) := by
  induction l with
  | nil => rfl
  | cons s rest ih =>
    rw [emitServers] at ih ⊢
    rw [List.flatMap_cons, contributedTools_append, ih, contributedTools_tagged,
      List.filter_cons]
    cases h : s.name == n <;> simp [h]

/-- A server that is the unique bearer of its name, is connected, and
passes the optional server filter is the unique survivor of the
connectivity filter among servers with its name. -/
theorem filterServers_single (servers : List ServerInfo) (opts : GenOptions) (s : ServerInfo)
    (huniq : servers.filter (fun x => x.name == s.name) = [s])
    (hst : s.status = "connected")
    (hsf : ∀ sf, opts.serverFilter = some sf → sf.contains s.name = true) :
    (filterServers servers opts).filter (fun x => x.name == s.name) = [s] := by
  unfold filterServers serverPass
  rw [filter_swap, huniq]
  cases hc : opts.serverFilter with
  | none => simp [hst]
  | some sf =>
    simp [hst]
    exact List.elem_iff.1 (hsf sf hc)

/-- C3 (amended): with a group filter resolving to group `g`, a
connected member server `s` whose entry in the group configuration is an
explicit allow-list contributes exactly its enabled tools whose name
with the first occurrence of `<serverName>-` removed (JavaScript
`String.replace` semantics) appears in the allow-list; a member with
filter `all` (a bare string member, a member without `tools`, or an
explicit `all`) contributes all enabled tools. -/
theorem spec_c3_theorem (servers : List ServerInfo) (groups : List IGroup) (gf : String)
    (g : IGroup) (s : ServerInfo)
    (hne : ¬gf = "")
    (hg : getGroupByIdOrName groups gf = some g)
    (hst : s.status = "connected")
    (huniq : servers.filter (fun x => x.name == s.name) = [s]) :
    (∀ allowed, lookupAssoc (buildGroupConfig g.servers) s.name
        = some (GroupServerTools.list allowed) →
      contributedTools
          (generateAllTools servers groups (GenOptions.mk false (some gf) none)) s.name
        = s.tools.filter (fun t => !(t.enabled == some false) &&
            allowed.contains (removeFirstOcc t.name (s.name ++ "-")))) ∧
    (lookupAssoc (buildGroupConfig g.servers) s.name = some GroupServerTools.all →
      contributedTools
          (generateAllTools servers groups (GenOptions.mk false (some gf) none)) s.name
        = s.tools.filter (fun t => !(t.enabled == some false))) := by
  have hgf : jsTruthyStr (GenOptions.mk false (some gf) none).groupFilter = some gf := by
    simp [jsTruthyStr, hne]
  have hout : ∀ tf, lookupAssoc (buildGroupConfig g.servers) s.name = some tf →
      contributedTools
          (generateAllTools servers groups (GenOptions.mk false (some gf) none)) s.name
        = serverContribution false true (buildGroupConfig g.servers) s := by
    intro tf hl
    rw [generateAllTools_eq_group servers groups (GenOptions.mk false (some gf) none) gf g hgf hg,
      contributedTools_emit, filter_swap,
      filterServers_single servers (GenOptions.mk false (some gf) none) s huniq hst
        (by intro sf h; exact absurd h (by simp))]
    have hcontains := buildGroupConfig_contains g.servers s.name tf hl
    have hmem : s.name ∈ groupServerNames g := List.elem_iff.1 hcontains
    simp [hmem]
  constructor
  · intro allowed hl
    rw [hout (GroupServerTools.list allowed) hl]
    simp [serverContribution, hl, filter_merge]
    refine List.filter_congr ?_
    intro a _
    exact Bool.and_comm _ _
  · intro hl
    rw [hout GroupServerTools.all hl]
    simp [serverContribution, hl]

/-- C3 is refuted as literally stated: the source computes the local
name with JavaScript `String.replace`, which removes the first
occurrence of `<serverName>-` anywhere in the tool name, not only a
prefix.  Server `a` declares tool `xa-b`; the prefix `a-` is absent so
the claim's local name is `xa-b`, which is not in the allow-list
`[xb]` — yet the generated document contains the tool, because
`xa-b`.replace(`a-`, empty) is `xb`. -/
theorem spec_c3_counterexample :
    contributedTools
        (generateAllTools [ServerInfo.mk "a" "connected" [Tool.mk "xa-b" none]]
          [IGroup.mk "g1" "grp" none
            [GroupServer.withConfig "a" (some (GroupServerTools.list ["xb"]))] none]
          (GenOptions.mk false (some "g1") none)) "a" = [Tool.mk "xa-b" none] ∧
    specLocalName "xa-b" "a" = "xa-b" ∧
    (["xb"] : List String).contains (specLocalName "xa-b" "a") = false := by
  refine ⟨by decide, by decide, by decide⟩

/-- Witness for the amended C3: a group with an allow-list member and an
`all` member, each applied to its connected server. -/
theorem spec_c3_witness :
    (contributedTools
        (generateAllTools
          [ServerInfo.mk "a" "connected" [Tool.mk "a-t1" none, Tool.mk "a-t2" none],
           ServerInfo.mk "b" "connected" [Tool.mk "b-t1" none, Tool.mk "b-t2" (some false)]]
          [IGroup.mk "g1" "grp" none
            [GroupServer.withConfig "a" (some (GroupServerTools.list ["t1"])),
             GroupServer.bare "b"] none]
          (GenOptions.mk false (some "g1") none)) "a"
      = (ServerInfo.mk "a" "connected" [Tool.mk "a-t1" none, Tool.mk "a-t2" none]).tools.filter
          (fun t => !(t.enabled == some false) &&
            (["t1"] : List String).contains (removeFirstOcc t.name ("a" ++ "-")))) ∧
    (contributedTools
        (generateAllTools
          [ServerInfo.mk "a" "connected" [Tool.mk "a-t1" none, Tool.mk "a-t2" none],
           ServerInfo.mk "b" "connected" [Tool.mk "b-t1" none, Tool.mk "b-t2" (some false)]]
          [IGroup.mk "g1" "grp" none
            [GroupServer.withConfig "a" (some (GroupServerTools.list ["t1"])),
             GroupServer.bare "b"] none]
          (GenOptions.mk false (some "g1") none)) "b"
      = (ServerInfo.mk "b" "connected" [Tool.mk "b-t1" none, Tool.mk "b-t2" (some false)]).tools.filter
          (fun t => !(t.enabled == some false))) :=
  ⟨(spec_c3_theorem
      [ServerInfo.mk "a" "connected" [Tool.mk "a-t1" none, Tool.mk "a-t2" none],
       ServerInfo.mk "b" "connected" [Tool.mk "b-t1" none, Tool.mk "b-t2" (some false)]]
      [IGroup.mk "g1" "grp" none
        [GroupServer.withConfig "a" (some (GroupServerTools.list ["t1"])),
         GroupServer.bare "b"] none] "g1"
      (IGroup.mk "g1" "grp" none
        [GroupServer.withConfig "a" (some (GroupServerTools.list ["t1"])),
         GroupServer.bare "b"] none)
      (ServerInfo.mk "a" "connected" [Tool.mk "a-t1" none, Tool.mk "a-t2" none])
      (by decide) (by decide) (by decide) (by decide)).1 ["t1"] (by decide),
   (spec_c3_theorem
      [ServerInfo.mk "a" "connected" [Tool.mk "a-t1" none, Tool.mk "a-t2" none],
       ServerInfo.mk "b" "connected" [Tool.mk "b-t1" none, Tool.mk "b-t2" (some false)]]
      [IGroup.mk "g1" "grp" none
        [GroupServer.withConfig "a" (some (GroupServerTools.list ["t1"])),
         GroupServer.bare "b"] none] "g1"
      (IGroup.mk "g1" "grp" none
        [GroupServer.withConfig "a" (some (GroupServerTools.list ["t1"])),
         GroupServer.bare "b"] none)
      (ServerInfo.mk "b" "connected" [Tool.mk "b-t1" none, Tool.mk "b-t2" (some false)])
      (by decide) (by decide) (by decide) (by decide)).2 (by decide)⟩

-- Frame lemmas: a change to one tool's `enabled` flag is invisible
-- everywhere else in the generated document.

theorem emitServers_append (inc grp : Bool) (cfg : List (String × GroupServerTools))
    (l₁ l₂ : List ServerInfo) :
    emitServers inc grp cfg (l₁ ++ l₂)
      = emitServers inc grp cfg l₁ ++ emitServers inc grp cfg l₂ := by
  simp [emitServers]

theorem filterSingleton {α : Type} (p : α → Bool) (x : α) :
    [x].filter p = if p x then [x] else [] := by
  rw [List.filter_cons]
  cases h : p x <;> simp [h]

theorem generateAllTools_append (l₁ l₂ : List ServerInfo) (groups : List IGroup)
    (opts : GenOptions) :
    generateAllTools (l₁ ++ l₂) groups opts
      = generateAllTools l₁ groups opts ++ generateAllTools l₂ groups opts := by
  cases hgf : jsTruthyStr opts.groupFilter with
  | none =>
    rw [generateAllTools_eq_nogroup _ _ _ hgf, generateAllTools_eq_nogroup _ _ _ hgf,
      generateAllTools_eq_nogroup _ _ _ hgf]
    unfold filterServers
    rw [List.filter_append, emitServers_append]
  | some gf =>
    cases hg : getGroupByIdOrName groups gf with
    | none =>
      rw [generateAllTools_eq_groupMissing _ _ _ gf hgf hg,
        generateAllTools_eq_groupMissing _ _ _ gf hgf hg,
        generateAllTools_eq_groupMissing _ _ _ gf hgf hg]
      rfl
    | some g =>
      rw [generateAllTools_eq_group _ _ _ gf g hgf hg, generateAllTools_eq_group _ _ _ gf g hgf hg,
        generateAllTools_eq_group _ _ _ gf g hgf hg]
      unfold filterServers
      rw [List.filter_append, List.filter_append, emitServers_append]

theorem generateAllTools_mid (L R : List ServerInfo) (x : ServerInfo) (groups : List IGroup)
    (opts : GenOptions) :
    generateAllTools (L ++ x :: R) groups opts
      = generateAllTools L groups opts
        ++ (generateAllTools [x] groups opts ++ generateAllTools R groups opts) := by
  rw [show L ++ x :: R = L ++ ([x] ++ R) from by simp, generateAllTools_append,
    generateAllTools_append]

/-- Membership in the contribution of one name is membership of the
tagged pair in the generated list. -/
theorem mem_contributedTools (out : List (String × Tool)) (n : String) (u : Tool) :
    u ∈ contributedTools out n ↔ (n, u) ∈ out := by
  unfold contributedTools
  simp only [List.mem_map, List.mem_filter]
  constructor
  · rintro ⟨p, ⟨hp, hbeq⟩, hsnd⟩
    have h₁ : p.1 = n := eq_of_beq hbeq
    have : (n, u) = p := by
      rw [← h₁, ← hsnd]
    rw [this]
    exact hp
  · intro h
    exact ⟨(n, u), ⟨h, by simp⟩, rfl⟩

theorem contributedTools_generate_single_ne (groups : List IGroup) (opts : GenOptions)
    (x : ServerInfo) (n : String) (hx : ¬x.name = n) :
    contributedTools (generateAllTools [x] groups opts) n = [] := by
  have hfil : (generateAllTools [x] groups opts).filter (fun p => p.1 == n) = [] := by
    rw [List.filter_eq_nil_iff]
    intro p hp
    obtain ⟨s, hs, hn, _⟩ := generateAllTools_source [x] groups opts p hp
    have hsx : s = x := by
      have hmem := ((mem_filterServers _ _ _).1 hs).1
      simpa using hmem
    simp [← hn, hsx, hx]
  unfold contributedTools
  rw [hfil]
  rfl

/-- A tool different from the changed one is in a server's contribution
before the change exactly when it is after the change. -/
theorem mem_contribution_frame (inc grp : Bool) (cfg : List (String × GroupServerTools))
    (nm stt : String) (A B : List Tool) (t₁ t₂ : Tool) (u : Tool)
    (h₁ : ¬u = t₁) (h₂ : ¬u = t₂) :
    (u ∈ serverContribution inc grp cfg (ServerInfo.mk nm stt (A ++ t₁ :: B)) ↔
     u ∈ serverContribution inc grp cfg (ServerInfo.mk nm stt (A ++ t₂ :: B))) := by
  rw [mem_serverContribution, mem_serverContribution]
  dsimp only
  have hmem : u ∈ A ++ t₁ :: B ↔ u ∈ A ++ t₂ :: B := by
    simp [h₁, h₂]
  rw [hmem]

theorem ct_single_frame (groups : List IGroup) (opts : GenOptions) (nm stt : String)
    (A B : List Tool) (t₁ t₂ : Tool) (u : Tool) (h₁ : ¬u = t₁) (h₂ : ¬u = t₂) (n : String) :
    (u ∈ contributedTools (generateAllTools [ServerInfo.mk nm stt (A ++ t₁ :: B)] groups opts) n ↔
     u ∈ contributedTools (generateAllTools [ServerInfo.mk nm stt (A ++ t₂ :: B)] groups opts) n)
    := by
  cases hgf : jsTruthyStr opts.groupFilter with
  | none =>
    rw [generateAllTools_eq_nogroup _ _ _ hgf, generateAllTools_eq_nogroup _ _ _ hgf,
      mem_contributedTools, mem_contributedTools, mem_emitServers, mem_emitServers]
    unfold filterServers
    rw [filterSingleton, filterSingleton]
    dsimp only
    rw [show serverPass opts (ServerInfo.mk nm stt (A ++ t₂ :: B))
        = serverPass opts (ServerInfo.mk nm stt (A ++ t₁ :: B)) from rfl]
    cases hpass : serverPass opts (ServerInfo.mk nm stt (A ++ t₁ :: B)) with
    | false => simp
    | true =>
      simp only [if_true, List.mem_singleton]
      constructor
      · rintro ⟨s, rfl, hn, hu⟩
        exact ⟨ServerInfo.mk nm stt (A ++ t₂ :: B), rfl, hn,
          (mem_contribution_frame _ _ _ nm stt A B t₁ t₂ u h₁ h₂).1 hu⟩
      · rintro ⟨s, rfl, hn, hu⟩
        exact ⟨ServerInfo.mk nm stt (A ++ t₁ :: B), rfl, hn,
          (mem_contribution_frame _ _ _ nm stt A B t₁ t₂ u h₁ h₂).2 hu⟩
  | some gf =>
    cases hg : getGroupByIdOrName groups gf with
    | none =>
      rw [generateAllTools_eq_groupMissing _ _ _ gf hgf hg,
        generateAllTools_eq_groupMissing _ _ _ gf hgf hg]
    | some g =>
      rw [generateAllTools_eq_group _ _ _ gf g hgf hg, generateAllTools_eq_group _ _ _ gf g hgf hg,
        mem_contributedTools, mem_contributedTools, mem_emitServers, mem_emitServers]
      unfold filterServers
      rw [filterSingleton, filterSingleton]
      dsimp only
      rw [show serverPass opts (ServerInfo.mk nm stt (A ++ t₂ :: B))
          = serverPass opts (ServerInfo.mk nm stt (A ++ t₁ :: B)) from rfl]
      cases hpass : serverPass opts (ServerInfo.mk nm stt (A ++ t₁ :: B)) with
      | false => simp
      | true =>
        simp only [if_true]
        rw [filterSingleton, filterSingleton]
        dsimp only
        cases hgrp : (groupServerNames g).contains nm with
        | false => simp [hgrp]
        | true =>
          simp only [hgrp, if_true, List.mem_singleton]
          constructor
          · rintro ⟨s, rfl, hn, hu⟩
            exact ⟨ServerInfo.mk nm stt (A ++ t₂ :: B), rfl, hn,
              (mem_contribution_frame _ _ _ nm stt A B t₁ t₂ u h₁ h₂).1 hu⟩
          · rintro ⟨s, rfl, hn, hu⟩
            exact ⟨ServerInfo.mk nm stt (A ++ t₁ :: B), rfl, hn,
              (mem_contribution_frame _ _ _ nm stt A B t₁ t₂ u h₁ h₂).2 hu⟩

theorem filter_append_mid {α : Type} (P : α → Bool) (L R : List α) (x : α) :
    (L ++ x :: R).filter P = L.filter P ++ ((if P x then [x] else []) ++ R.filter P) := by
  rw [List.filter_append, List.filter_cons]
  cases h : P x <;> simp [h]

/-- With `includeDisabledTools` off, no disabled tool survives the
per-server selection anywhere in the pipeline. -/
theorem generateAllTools_enabled (servers : List ServerInfo) (groups : List IGroup)
    (opts : GenOptions) (p : String × Tool) (hinc : opts.includeDisabledTools = false)
    (hp : p ∈ generateAllTools servers groups opts) : ¬p.2.enabled = some false := by
  cases hgf : jsTruthyStr opts.groupFilter with
  | none =>
    rw [generateAllTools_eq_nogroup servers groups opts hgf] at hp
    obtain ⟨s, _, _, ht⟩ := (mem_emitServers _ _ _ _ _).1 hp
    have hv := ((mem_serverContribution _ _ _ _ _).1 ht).2.1
    rw [hinc] at hv
    simpa using hv
  | some gf =>
    cases hg : getGroupByIdOrName groups gf with
    | none =>
      rw [generateAllTools_eq_groupMissing servers groups opts gf hgf hg] at hp
      exact absurd hp (List.not_mem_nil p)
    | some g =>
      rw [generateAllTools_eq_group servers groups opts gf g hgf hg] at hp
      obtain ⟨s, _, _, ht⟩ := (mem_emitServers _ _ _ _ _).1 hp
      have hv := ((mem_serverContribution _ _ _ _ _).1 ht).2.1
      rw [hinc] at hv
      simpa using hv

/-- C8: a tool's `enabled` flag only controls its own visibility.
With `includeDisabledTools` off every generated tool is enabled; with it
on, every tool of a connected server appears; and flipping one tool's
`enabled` flag changes neither the filtered server list (names and
connectivity statuses), nor any other server's contributed tools, nor the
membership of any other tool of the owning server. -/
theorem spec_c8_theorem (servers : List ServerInfo) (groups : List IGroup) (opts : GenOptions)
    (s : ServerInfo) (t t₁ : Tool) (e : Option Bool) (L R : List ServerInfo) (A B : List Tool)
    (nm stt : String) :
    (opts.includeDisabledTools = false →
      ∀ p, p ∈ generateAllTools servers groups opts → ¬p.2.enabled = some false) ∧
    (s ∈ servers → s.status = "connected" → t ∈ s.tools →
      (s.name, t) ∈ generateAllTools servers groups (GenOptions.mk true none none)) ∧
    ((filterServers (L ++ ServerInfo.mk nm stt (A ++ t₁ :: B) :: R) opts).map
        (fun x => (x.name, x.status))
      = (filterServers (L ++ ServerInfo.mk nm stt (A ++ Tool.mk t₁.name e :: B) :: R) opts).map
        (fun x => (x.name, x.status))) ∧
    (∀ n, ¬n = nm →
      contributedTools
          (generateAllTools (L ++ ServerInfo.mk nm stt (A ++ t₁ :: B) :: R) groups opts) n
        = contributedTools
          (generateAllTools (L ++ ServerInfo.mk nm stt (A ++ Tool.mk t₁.name e :: B) :: R)
            groups opts) n) ∧
    (∀ u, ¬u = t₁ → ¬u = Tool.mk t₁.name e →
      (u ∈ contributedTools
          (generateAllTools (L ++ ServerInfo.mk nm stt (A ++ t₁ :: B) :: R) groups opts) nm ↔
       u ∈ contributedTools
          (generateAllTools (L ++ ServerInfo.mk nm stt (A ++ Tool.mk t₁.name e :: B) :: R)
            groups opts) nm)) := by
  refine ⟨?_, ?_, ?_, ?_, ?_⟩
  · intro hinc p hp
    exact generateAllTools_enabled servers groups opts p hinc hp
  · intro hs hst ht
    rw [generateAllTools_eq_nogroup servers groups (GenOptions.mk true none none) rfl]
    refine (mem_emitServers _ _ _ _ _).2 ⟨s, ?_, rfl, ?_⟩
    · exact (mem_filterServers _ _ _).2 ⟨hs, hst, fun sf h => by cases h⟩
    · refine (mem_serverContribution _ _ _ _ _).2 ⟨ht, by simp, ?_⟩
      rfl
  · unfold filterServers
    rw [filter_append_mid, filter_append_mid]
    rw [show serverPass opts (ServerInfo.mk nm stt (A ++ Tool.mk t₁.name e :: B))
        = serverPass opts (ServerInfo.mk nm stt (A ++ t₁ :: B)) from rfl]
    cases hpass : serverPass opts (ServerInfo.mk nm stt (A ++ t₁ :: B)) <;> simp
  · intro n hn
    simp only [generateAllTools_mid, contributedTools_append]
    rw [contributedTools_generate_single_ne groups opts (ServerInfo.mk nm stt (A ++ t₁ :: B)) n
        (fun hh => hn hh.symm),
      contributedTools_generate_single_ne groups opts
        (ServerInfo.mk nm stt (A ++ Tool.mk t₁.name e :: B)) n (fun hh => hn hh.symm)]
  · intro u h₁ h₂
    simp only [generateAllTools_mid, contributedTools_append, List.mem_append]
    rw [ct_single_frame groups opts nm stt A B t₁ (Tool.mk t₁.name e) u h₁ h₂ nm]

/-- Witness for C8: a server with one disabled and one enabled tool,
flipping the first tool's flag. -/
theorem spec_c8_witness :
    (¬(("a", Tool.mk "a-y" none) : String × Tool).2.enabled = some false) ∧
    (("a", Tool.mk "a-x" (some false)) ∈ generateAllTools
      [ServerInfo.mk "a" "connected" [Tool.mk "a-x" (some false), Tool.mk "a-y" none]] []
      (GenOptions.mk true none none)) ∧
    ((filterServers [ServerInfo.mk "a" "connected" [Tool.mk "a-x" none, Tool.mk "a-y" none]]
        (GenOptions.mk false none none)).map (fun x => (x.name, x.status))
      = (filterServers
          [ServerInfo.mk "a" "connected" [Tool.mk "a-x" (some false), Tool.mk "a-y" none]]
          (GenOptions.mk false none none)).map (fun x => (x.name, x.status))) ∧
    (contributedTools
        (generateAllTools [ServerInfo.mk "a" "connected" [Tool.mk "a-x" none, Tool.mk "a-y" none]]
          [] (GenOptions.mk false none none)) "b"
      = contributedTools
        (generateAllTools
          [ServerInfo.mk "a" "connected" [Tool.mk "a-x" (some false), Tool.mk "a-y" none]]
          [] (GenOptions.mk false none none)) "b") ∧
    (Tool.mk "a-y" none ∈ contributedTools
        (generateAllTools [ServerInfo.mk "a" "connected" [Tool.mk "a-x" none, Tool.mk "a-y" none]]
          [] (GenOptions.mk false none none)) "a" ↔
     Tool.mk "a-y" none ∈ contributedTools
        (generateAllTools
          [ServerInfo.mk "a" "connected" [Tool.mk "a-x" (some false), Tool.mk "a-y" none]]
          [] (GenOptions.mk false none none)) "a") :=
  ⟨(spec_c8_theorem
      [ServerInfo.mk "a" "connected" [Tool.mk "a-x" (some false), Tool.mk "a-y" none]] []
      (GenOptions.mk false none none)
      (ServerInfo.mk "a" "connected" [Tool.mk "a-x" (some false), Tool.mk "a-y" none])
      (Tool.mk "a-x" (some false)) (Tool.mk "a-x" none) (some false) [] [] []
      [Tool.mk "a-y" none] "a" "connected").1 rfl ("a", Tool.mk "a-y" none) (by decide),
   (spec_c8_theorem
      [ServerInfo.mk "a" "connected" [Tool.mk "a-x" (some false), Tool.mk "a-y" none]] []
      (GenOptions.mk false none none)
      (ServerInfo.mk "a" "connected" [Tool.mk "a-x" (some false), Tool.mk "a-y" none])
      (Tool.mk "a-x" (some false)) (Tool.mk "a-x" none) (some false) [] [] []
      [Tool.mk "a-y" none] "a" "connected").2.1 (by decide) (by decide) (by decide),
   (spec_c8_theorem
      [ServerInfo.mk "a" "connected" [Tool.mk "a-x" (some false), Tool.mk "a-y" none]] []
      (GenOptions.mk false none none)
      (ServerInfo.mk "a" "connected" [Tool.mk "a-x" (some false), Tool.mk "a-y" none])
      (Tool.mk "a-x" (some false)) (Tool.mk "a-x" none) (some false) [] [] []
      [Tool.mk "a-y" none] "a" "connected").2.2.1,
   (spec_c8_theorem
      [ServerInfo.mk "a" "connected" [Tool.mk "a-x" (some false), Tool.mk "a-y" none]] []
      (GenOptions.mk false none none)
      (ServerInfo.mk "a" "connected" [Tool.mk "a-x" (some false), Tool.mk "a-y" none])
      (Tool.mk "a-x" (some false)) (Tool.mk "a-x" none) (some false) [] [] []
      [Tool.mk "a-y" none] "a" "connected").2.2.2.1 "b" (by decide),
   (spec_c8_theorem
      [ServerInfo.mk "a" "connected" [Tool.mk "a-x" (some false), Tool.mk "a-y" none]] []
      (GenOptions.mk false none none)
      (ServerInfo.mk "a" "connected" [Tool.mk "a-x" (some false), Tool.mk "a-y" none])
      (Tool.mk "a-x" (some false)) (Tool.mk "a-x" none) (some false) [] [] []
      [Tool.mk "a-y" none] "a" "connected").2.2.2.2 (Tool.mk "a-y" none) (by decide) (by decide)⟩

-- The JSON-settings data-access layer (`src/dao`).  The stored
-- `mcp_settings.json` value is passed explicitly; each DAO operation
-- returns the new stored value together with its result.

/-- A server configuration (`ServerConfig` in `src/types`), restricted
to representative optional fields; the remaining optional fields (args,
env, headers, tools, prompts, ...) merge identically under the object
spread of `updateEntity` and are omitted. -/
structure ServerConfig where
  type : Option String := none
  command : Option String := none
  url : Option String := none
  enabled : Option Bool := none
  owner : Option String := none
  deriving DecidableEq

/-- `ServerConfigWithName`: a server entry of `settings.mcpServers`
together with its object key. -/
structure ServerConfigWithName where
  name : String
  config : ServerConfig
  deriving DecidableEq

/-- `Partial<ServerConfigWithName>` as passed to `ServerDaoImpl.update`:
a `none` field is an absent key; a present key overwrites. -/
structure ServerUpdate where
  name : Option String := none
  type : Option String := none
  command : Option String := none
  url : Option String := none
  enabled : Option Bool := none
  owner : Option String := none
  deriving DecidableEq

/-- `ServerDaoImpl.updateEntity` (lines 91-100) combined with the
name-stripping of `update` (line 145): the object spread of the allowed
updates over the existing entry, with `name` forced to the existing
name. -/
def applyServerUpdates (existing : ServerConfigWithName) (u : ServerUpdate) :
    ServerConfigWithName :=
  { name := existing.name,
    config :=
      { type := mergeField u.type existing.config.type,
        command := mergeField u.command existing.config.command,
        url := mergeField u.url existing.config.url,
        enabled := mergeField u.enabled existing.config.enabled,
        owner := mergeField u.owner existing.config.owner } }

/-- A user (`IUser` in `src/types`). -/
structure IUser where
  username : String
  password : String
  isAdmin : Option Bool := none
  deriving DecidableEq

/-- `Partial<IUser>` as passed to `UserDaoImpl.update`. -/
structure UserUpdate where
  username : Option String := none
  password : Option String := none
  isAdmin : Option Bool := none
  deriving DecidableEq

/-- `UserDaoImpl.updateEntity` (lines 60-66) combined with the
username-stripping of `update` (line 119). -/
def applyUserUpdates (existing : IUser) (u : UserUpdate) : IUser :=
  { username := existing.username,
    password := u.password.getD existing.password,
    isAdmin := mergeField u.isAdmin existing.isAdmin }

/-- `Partial<IGroup>` as passed to `GroupDaoImpl.update`. -/
structure GroupUpdate where
  id : Option String := none
  name : Option String := none
  description : Option String := none
  servers : Option (List GroupServer) := none
  owner : Option String := none
  deriving DecidableEq

/-- `GroupDaoImpl.updateEntity` (lines 69-75) combined with the
id-stripping of `update` (line 118). -/
def applyGroupUpdates (existing : IGroup) (u : GroupUpdate) : IGroup :=
  { id := existing.id,
    name := u.name.getD existing.name,
    description := mergeField u.description existing.description,
    servers := u.servers.getD existing.servers,
    owner := mergeField u.owner existing.owner }

/-- The `systemConfig` object, treated as opaque structured data. -/
abbrev SystemConfig : Type := List (String × String)

/-- A per-user configuration object, treated as opaque structured
data. -/
abbrev UserConfig : Type := List (String × String)

/-- The stored `mcp_settings.json` value (`McpSettings`): every section
may be absent.  `mcpServers` and `userConfigs` are objects keyed by
name, modelled as their ordered entry lists. -/
structure StoredSettings where
  users : Option (List IUser) := none
  mcpServers : Option (List (String × ServerConfig)) := none
  groups : Option (List IGroup) := none
  systemConfig : Option SystemConfig := none
  userConfigs : Option (List (String × UserConfig)) := none
  deriving DecidableEq

/-- `ServerDaoImpl.getAll` (lines 57-69): the entries of
`settings.mcpServers || \x7b\x7d` with their keys as names. -/
def serverGetAll (st : StoredSettings) : List ServerConfigWithName :=
  (st.mcpServers.getD []).map (fun p => ServerConfigWithName.mk p.1 p.2)

/-- `ServerDaoImpl.saveAll` (lines 71-81): rebuild `settings.mcpServers`
from the list. -/
def serverSaveAll (st : StoredSettings) (l : List ServerConfigWithName) : StoredSettings :=
  { st with mcpServers := some (l.map (fun s => (s.name, s.config))) }

/-- `findIndex` followed by in-place replacement, shared by the `update`
methods of the DAOs: locate the first entity with the key, apply the
update to it, and return the new list together with the old and the
updated entity. -/
def updateFirstBy {α : Type} (idOf : α → String) (upd : α → α) (key : String) :
    List α → Option (List α × α × α)
  | [] => none
  | x :: rest =>
    if idOf x == key then some (upd x :: rest, x, upd x)
    else (updateFirstBy idOf upd key rest).map (fun p => (x :: p.1, p.2))

/-- `ServerDaoImpl.update` (lines 133-151): a missing name leaves the
settings untouched and returns null; otherwise the entry is merged and
the whole list saved. -/
def serverDaoUpdate (st : StoredSettings) (name : String) (u : ServerUpdate) :
    StoredSettings × Option ServerConfigWithName :=
  match updateFirstBy (fun s => s.name) (fun s => applyServerUpdates s u) name
      (serverGetAll st) with
  | none => (st, none)
  | some (l', _, updated) => (serverSaveAll st l', some updated)

/-- `ServerDaoImpl.setEnabled` (lines 190-193): update with a singleton
`\x7benabled\x7d` patch and report whether the server was found. -/
def serverDaoSetEnabled (st : StoredSettings) (name : String) (enabled : Bool) :
    StoredSettings × Bool :=
  let r := serverDaoUpdate st name { enabled := some enabled }
  (r.1, r.2.isSome)

/-- `ServerDaoImpl.create` (lines 111-131): reject an existing name
before touching the store, otherwise append the new entry with its
`enabled`/`owner` defaults. -/
def serverDaoCreate (st : StoredSettings) (data : ServerConfigWithName) :
    StoredSettings × Except String ServerConfigWithName :=
  if (serverGetAll st).any (fun s => s.name == data.name) then
    (st, Except.error ("Server " ++ data.name ++ " already exists"))
  else
    (serverSaveAll st (serverGetAll st ++
        [ServerConfigWithName.mk data.name
          { data.config with
            enabled := some (data.config.enabled.getD true),
            owner := some (data.config.owner.getD "admin") }]),
     Except.ok (ServerConfigWithName.mk data.name
        { data.config with
          enabled := some (data.config.enabled.getD true),
          owner := some (data.config.owner.getD "admin") }))

/-- `UserDaoImpl.update` (lines 110-125). -/
def userDaoUpdate (st : StoredSettings) (username : String) (u : UserUpdate) :
    StoredSettings × Option IUser :=
  match updateFirstBy (fun x => x.username) (fun x => applyUserUpdates x u) username
      (st.users.getD []) with
  | none => (st, none)
  | some (l', _, updated) => ({ st with users := some l' }, some updated)

/-- `UserDaoImpl.createWithHashedPassword` (lines 85-108): the bcrypt
hash is abstracted as the function argument `hash`. -/
def userDaoCreateWithHashedPassword (st : StoredSettings) (hash : String → String)
    (username password : String) (isAdmin : Bool) : StoredSettings × Except String IUser :=
  if (st.users.getD []).any (fun x => x.username == username) then
    (st, Except.error ("User " ++ username ++ " already exists"))
  else
    ({ st with users := some (st.users.getD []
        ++ [IUser.mk username (hash password) (some isAdmin)]) },
     Except.ok (IUser.mk username (hash password) (some isAdmin)))

/-- `GroupDaoImpl.update` (lines 101-124): a missing id returns null; a
name update colliding with another group's name throws before any write
(the truthiness guard on `updates.name` makes the empty string skip the
check); otherwise the entry is merged and saved. -/
def groupDaoUpdate (st : StoredSettings) (gid : String) (u : GroupUpdate) :
    StoredSettings × Except String (Option IGroup) :=
  match updateFirstBy (fun g => g.id) (fun g => applyGroupUpdates g u) gid
      (st.groups.getD []) with
  | none => (st, Except.ok none)
  | some (l', old, updated) =>
    if (match u.name with
        | some nn => nn != "" && nn != old.name &&
            (st.groups.getD []).any (fun g => g.name == nn && g.id != gid)
        | none => false) then
      (st, Except.error ("Group with name " ++ u.name.getD "" ++ " already exists"))
    else
      ({ st with groups := some l' }, Except.ok (some updated))

/-- The creation payload of `GroupDaoImpl.create`: `Omit<IGroup, 'id'>`;
the fresh uuid is abstracted as the argument `freshId`. -/
structure GroupCreateData where
  name : String
  description : Option String := none
  servers : List GroupServer := []
  owner : Option String := none
  deriving DecidableEq

/-- `GroupDaoImpl.create` (lines 86-99): reject an existing group name
before touching the store, otherwise append the entity built by
`createEntity` (lines 60-67). -/
def groupDaoCreate (st : StoredSettings) (freshId : String) (data : GroupCreateData) :
    StoredSettings × Except String IGroup :=
  if (st.groups.getD []).any (fun g => g.name == data.name) then
    (st, Except.error ("Group with name " ++ data.name ++ " already exists"))
  else
    ({ st with groups := some (st.groups.getD [] ++
        [IGroup.mk freshId data.name data.description data.servers
          (some (data.owner.getD "admin"))]) },
     Except.ok (IGroup.mk freshId data.name data.description data.servers
        (some (data.owner.getD "admin"))))

-- Preservation lemmas for the shared find-and-update scheme.

theorem serverGetAll_saveAll (st : StoredSettings) (l : List ServerConfigWithName) :
    serverGetAll (serverSaveAll st l) = l := by
  unfold serverGetAll serverSaveAll
  rw [show ({ st with mcpServers := some (l.map (fun s => (s.name, s.config))) }
      : StoredSettings).mcpServers = some (l.map (fun s => (s.name, s.config))) from rfl,
    Option.getD_some, List.map_map]
  have h : ((fun p : String × ServerConfig => ServerConfigWithName.mk p.1 p.2)
      ∘ (fun s : ServerConfigWithName => (s.name, s.config))) = id := funext fun s => rfl
  rw [h, List.map_id]

theorem updateFirstBy_spec {α : Type} (idOf : α → String) (upd : α → α) (key : String)
    (hid : ∀ x, idOf (upd x) = idOf x) :
    ∀ (l l' : List α) (old new : α),
      updateFirstBy idOf upd key l = some (l', old, new) →
      (idOf old == key) = true ∧ new = upd old ∧ l'.map idOf = l.map idOf := by
  intro l
  induction l with
  | nil =>
    intro l' old new h
    exact absurd h (by simp [updateFirstBy])
  | cons x rest ih =>
    intro l' old new h
    rw [updateFirstBy] at h
    cases hx : idOf x == key with
    | true =>
      rw [hx] at h
      simp only [if_pos] at h
      obtain ⟨h₁, h₂, h₃⟩ := by simpa using h
      refine ⟨h₂ ▸ hx, by rw [← h₂, ← h₃], ?_⟩
      rw [← h₁]
      simp [hid]
    | false =>
      rw [hx] at h
      simp only [Bool.false_eq_true, if_false] at h
      rw [Option.map_eq_some'] at h
      obtain ⟨⟨l₀, old₀, new₀⟩, hrec, heq⟩ := h
      obtain ⟨h₁, h₂, h₃⟩ := by simpa using heq
      obtain ⟨g₁, g₂, g₃⟩ := ih l₀ old₀ new₀ hrec
      refine ⟨h₂ ▸ g₁, by rw [← h₂, ← h₃]; exact g₂, ?_⟩
      rw [← h₁]
      simp [g₃]

theorem updateFirstBy_idem {α : Type} (idOf : α → String) (upd : α → α) (key : String)
    (hid : ∀ x, idOf (upd x) = idOf x) (hidem : ∀ x, upd (upd x) = upd x) :
    ∀ (l l' : List α) (old new : α),
      updateFirstBy idOf upd key l = some (l', old, new) →
      updateFirstBy idOf upd key l' = some (l', new, new) := by
  intro l
  induction l with
  | nil =>
    intro l' old new h
    exact absurd h (by simp [updateFirstBy])
  | cons x rest ih =>
    intro l' old new h
    rw [updateFirstBy] at h
    cases hx : idOf x == key with
    | true =>
      rw [hx] at h
      simp only [if_pos] at h
      obtain ⟨h₁, h₂, h₃⟩ := by simpa using h
      rw [← h₁, updateFirstBy]
      rw [show (idOf (upd x) == key) = true from by rw [hid]; exact hx]
      simp only [if_pos]
      rw [hidem x, h₃]
    | false =>
      rw [hx] at h
      simp only [Bool.false_eq_true, if_false] at h
      rw [Option.map_eq_some'] at h
      obtain ⟨⟨l₀, old₀, new₀⟩, hrec, heq⟩ := h
      obtain ⟨h₁, h₂, h₃⟩ := by simpa using heq
      rw [← h₁, updateFirstBy, hx]
      simp only [Bool.false_eq_true, if_false]
      rw [ih l₀ old₀ new₀ hrec, h₃]
      rfl

theorem serverSaveAll_twice (st : StoredSettings) (l₁ l₂ : List ServerConfigWithName) :
    serverSaveAll (serverSaveAll st l₁) l₂ = serverSaveAll st l₂ := rfl

/-- C6: `ServerDao.setEnabled` is idempotent — a second identical call
leaves the stored settings unchanged and returns the same result. -/
theorem spec_c6_theorem (st : StoredSettings) (n : String) (b : Bool) :
    serverDaoSetEnabled (serverDaoSetEnabled st n b).1 n b = serverDaoSetEnabled st n b := by
  unfold serverDaoSetEnabled serverDaoUpdate
  cases hu : updateFirstBy (fun s => s.name)
      (fun s => applyServerUpdates s { enabled := some b }) n (serverGetAll st) with
  | none => simp [hu]
  | some trip =>
    obtain ⟨l', old, new⟩ := trip
    have hsecond := updateFirstBy_idem (fun s : ServerConfigWithName => s.name)
      (fun s => applyServerUpdates s { enabled := some b }) n
      (fun x : ServerConfigWithName => rfl) (fun x : ServerConfigWithName => rfl)
      (serverGetAll st) l' old new hu
    simp only [hu]
    rw [serverGetAll_saveAll st l']
    simp [hsecond, serverSaveAll_twice]

/-- C9: the update operations of the three DAOs preserve identifiers:
whatever the updates object contains — including a different name, id or
username — the returned entity keeps the identifier it was looked up by,
and the stored collection's identifier sequence is unchanged. -/
theorem spec_c9_theorem (st : StoredSettings) (sn un gid : String) (su : ServerUpdate)
    (uu : UserUpdate) (gu : GroupUpdate) :
    (∀ e, (serverDaoUpdate st sn su).2 = some e → e.name = sn) ∧
    ((serverGetAll (serverDaoUpdate st sn su).1).map (fun s => s.name)
      = (serverGetAll st).map (fun s => s.name)) ∧
    (∀ e, (userDaoUpdate st un uu).2 = some e → e.username = un) ∧
    (((userDaoUpdate st un uu).1.users.getD []).map (fun x => x.username)
      = (st.users.getD []).map (fun x => x.username)) ∧
    (∀ g, (groupDaoUpdate st gid gu).2 = Except.ok (some g) → g.id = gid) ∧
    (((groupDaoUpdate st gid gu).1.groups.getD []).map (fun g => g.id)
      = (st.groups.getD []).map (fun g => g.id)) := by
  refine ⟨?_, ?_, ?_, ?_, ?_, ?_⟩
  · intro e h
    unfold serverDaoUpdate at h
    cases hu : updateFirstBy (fun s : ServerConfigWithName => s.name)
        (fun s => applyServerUpdates s su) sn (serverGetAll st) with
    | none => rw [hu] at h; simp at h
    | some trip =>
      obtain ⟨l', old, new⟩ := trip
      rw [hu] at h
      simp at h
      obtain ⟨g₁, g₂, _⟩ := updateFirstBy_spec (fun s : ServerConfigWithName => s.name)
        (fun s => applyServerUpdates s su) sn (fun x => rfl) (serverGetAll st) l' old new hu
      rw [← h, g₂]
      exact eq_of_beq g₁
  · unfold serverDaoUpdate
    cases hu : updateFirstBy (fun s : ServerConfigWithName => s.name)
        (fun s => applyServerUpdates s su) sn (serverGetAll st) with
    | none => rfl
    | some trip =>
      obtain ⟨l', old, new⟩ := trip
      obtain ⟨_, _, g₃⟩ := updateFirstBy_spec (fun s : ServerConfigWithName => s.name)
        (fun s => applyServerUpdates s su) sn (fun x => rfl) (serverGetAll st) l' old new hu
      simpa [serverGetAll_saveAll] using g₃
  · intro e h
    unfold userDaoUpdate at h
    cases hu : updateFirstBy (fun x : IUser => x.username)
        (fun x => applyUserUpdates x uu) un (st.users.getD []) with
    | none => rw [hu] at h; simp at h
    | some trip =>
      obtain ⟨l', old, new⟩ := trip
      rw [hu] at h
      simp at h
      obtain ⟨g₁, g₂, _⟩ := updateFirstBy_spec (fun x : IUser => x.username)
        (fun x => applyUserUpdates x uu) un (fun x => rfl) (st.users.getD []) l' old new hu
      rw [← h, g₂]
      exact eq_of_beq g₁
  · unfold userDaoUpdate
    cases hu : updateFirstBy (fun x : IUser => x.username)
        (fun x => applyUserUpdates x uu) un (st.users.getD []) with
    | none => rfl
    | some trip =>
      obtain ⟨l', old, new⟩ := trip
      obtain ⟨_, _, g₃⟩ := updateFirstBy_spec (fun x : IUser => x.username)
        (fun x => applyUserUpdates x uu) un (fun x => rfl) (st.users.getD []) l' old new hu
      simpa using g₃
  · intro g h
    unfold groupDaoUpdate at h
    cases hu : updateFirstBy (fun x : IGroup => x.id)
        (fun x => applyGroupUpdates x gu) gid (st.groups.getD []) with
    | none => rw [hu] at h; simp at h
    | some trip =>
      obtain ⟨l', old, new⟩ := trip
      obtain ⟨g₁, g₂, _⟩ := updateFirstBy_spec (fun x : IGroup => x.id)
        (fun x => applyGroupUpdates x gu) gid (fun x => rfl) (st.groups.getD []) l' old new hu
      cases hcond : (match gu.name with
          | some nn => nn != "" && nn != old.name &&
              (st.groups.getD []).any (fun x => x.name == nn && x.id != gid)
          | none => false) with
      | true =>
        rw [hu] at h
        dsimp only at h
        rw [hcond] at h
        simp at h
      | false =>
        rw [hu] at h
        dsimp only at h
        rw [hcond] at h
        simp at h
        rw [← h, g₂]
        exact eq_of_beq g₁
  · unfold groupDaoUpdate
    cases hu : updateFirstBy (fun x : IGroup => x.id)
        (fun x => applyGroupUpdates x gu) gid (st.groups.getD []) with
    | none => rfl
    | some trip =>
      obtain ⟨l', old, new⟩ := trip
      obtain ⟨_, _, g₃⟩ := updateFirstBy_spec (fun x : IGroup => x.id)
        (fun x => applyGroupUpdates x gu) gid (fun x => rfl) (st.groups.getD []) l' old new hu
      dsimp only
      cases hcond : (match gu.name with
          | some nn => nn != "" && nn != old.name &&
              (st.groups.getD []).any (fun x => x.name == nn && x.id != gid)
          | none => false) with
      | true => simp
      | false => simpa using g₃

/-- Witness for C9: updates that try to change the identifiers are
applied to a one-entry store for each DAO. -/
theorem spec_c9_witness :
    ((ServerConfigWithName.mk "a" (ServerConfig.mk none none none (some false) none)).name
      = "a") ∧
    ((serverGetAll (serverDaoUpdate
        (StoredSettings.mk (some [IUser.mk "u1" "pw" none])
          (some [("a", ServerConfig.mk none none none none none)])
          (some [IGroup.mk "id1" "grp" none [] none]) none none)
        "a" (ServerUpdate.mk (some "zzz") none none none (some false) none)).1).map
          (fun s => s.name)
      = (serverGetAll (StoredSettings.mk (some [IUser.mk "u1" "pw" none])
          (some [("a", ServerConfig.mk none none none none none)])
          (some [IGroup.mk "id1" "grp" none [] none]) none none)).map (fun s => s.name)) ∧
    ((IUser.mk "u1" "pw" (some true)).username = "u1") ∧
    (((userDaoUpdate
        (StoredSettings.mk (some [IUser.mk "u1" "pw" none])
          (some [("a", ServerConfig.mk none none none none none)])
          (some [IGroup.mk "id1" "grp" none [] none]) none none)
        "u1" (UserUpdate.mk (some "zzz") none (some true))).1.users.getD []).map
          (fun x => x.username)
      = ((StoredSettings.mk (some [IUser.mk "u1" "pw" none])
          (some [("a", ServerConfig.mk none none none none none)])
          (some [IGroup.mk "id1" "grp" none [] none]) none none).users.getD []).map
          (fun x => x.username)) ∧
    ((IGroup.mk "id1" "grp" none [] none).id = "id1") ∧
    (((groupDaoUpdate
        (StoredSettings.mk (some [IUser.mk "u1" "pw" none])
          (some [("a", ServerConfig.mk none none none none none)])
          (some [IGroup.mk "id1" "grp" none [] none]) none none)
        "id1" (GroupUpdate.mk (some "zzz") none none none none)).1.groups.getD []).map
          (fun g => g.id)
      = ((StoredSettings.mk (some [IUser.mk "u1" "pw" none])
          (some [("a", ServerConfig.mk none none none none none)])
          (some [IGroup.mk "id1" "grp" none [] none]) none none).groups.getD []).map
          (fun g => g.id)) :=
  ⟨(spec_c9_theorem
      (StoredSettings.mk (some [IUser.mk "u1" "pw" none])
        (some [("a", ServerConfig.mk none none none none none)])
        (some [IGroup.mk "id1" "grp" none [] none]) none none)
      "a" "u1" "id1" (ServerUpdate.mk (some "zzz") none none none (some false) none)
      (UserUpdate.mk (some "zzz") none (some true))
      (GroupUpdate.mk (some "zzz") none none none none)).1
      (ServerConfigWithName.mk "a" (ServerConfig.mk none none none (some false) none)) rfl,
   (spec_c9_theorem
      (StoredSettings.mk (some [IUser.mk "u1" "pw" none])
        (some [("a", ServerConfig.mk none none none none none)])
        (some [IGroup.mk "id1" "grp" none [] none]) none none)
      "a" "u1" "id1" (ServerUpdate.mk (some "zzz") none none none (some false) none)
      (UserUpdate.mk (some "zzz") none (some true))
      (GroupUpdate.mk (some "zzz") none none none none)).2.1,
   (spec_c9_theorem
      (StoredSettings.mk (some [IUser.mk "u1" "pw" none])
        (some [("a", ServerConfig.mk none none none none none)])
        (some [IGroup.mk "id1" "grp" none [] none]) none none)
      "a" "u1" "id1" (ServerUpdate.mk (some "zzz") none none none (some false) none)
      (UserUpdate.mk (some "zzz") none (some true))
      (GroupUpdate.mk (some "zzz") none none none none)).2.2.1
      (IUser.mk "u1" "pw" (some true)) rfl,
   (spec_c9_theorem
      (StoredSettings.mk (some [IUser.mk "u1" "pw" none])
        (some [("a", ServerConfig.mk none none none none none)])
        (some [IGroup.mk "id1" "grp" none [] none]) none none)
      "a" "u1" "id1" (ServerUpdate.mk (some "zzz") none none none (some false) none)
      (UserUpdate.mk (some "zzz") none (some true))
      (GroupUpdate.mk (some "zzz") none none none none)).2.2.2.1,
   (spec_c9_theorem
      (StoredSettings.mk (some [IUser.mk "u1" "pw" none])
        (some [("a", ServerConfig.mk none none none none none)])
        (some [IGroup.mk "id1" "grp" none [] none]) none none)
      "a" "u1" "id1" (ServerUpdate.mk (some "zzz") none none none (some false) none)
      (UserUpdate.mk (some "zzz") none (some true))
      (GroupUpdate.mk (some "zzz") none none none none)).2.2.2.2.1
      (IGroup.mk "id1" "grp" none [] none) rfl,
   (spec_c9_theorem
      (StoredSettings.mk (some [IUser.mk "u1" "pw" none])
        (some [("a", ServerConfig.mk none none none none none)])
        (some [IGroup.mk "id1" "grp" none [] none]) none none)
      "a" "u1" "id1" (ServerUpdate.mk (some "zzz") none none none (some false) none)
      (UserUpdate.mk (some "zzz") none (some true))
      (GroupUpdate.mk (some "zzz") none none none none)).2.2.2.2.2⟩

/-- C10: each create operation rejects a duplicate of its
duplicate-checked key with an `already exists` error while leaving the
store untouched, and appends the new entity otherwise. -/
theorem spec_c10_theorem (st : StoredSettings) (data : ServerConfigWithName)
    (freshId : String) (gdata : GroupCreateData) (hash : String → String)
    (un pw : String) (adm : Bool) :
    ((serverGetAll st).any (fun s => s.name == data.name) = true →
      serverDaoCreate st data
        = (st, Except.error ("Server " ++ data.name ++ " already exists"))) ∧
    ((serverGetAll st).any (fun s => s.name == data.name) = false →
      ∃ e, (serverDaoCreate st data).2 = Except.ok e ∧ e.name = data.name ∧
        serverGetAll (serverDaoCreate st data).1 = serverGetAll st ++ [e]) ∧
    ((st.groups.getD []).any (fun g => g.name == gdata.name) = true →
      groupDaoCreate st freshId gdata
        = (st, Except.error ("Group with name " ++ gdata.name ++ " already exists"))) ∧
    ((st.groups.getD []).any (fun g => g.name == gdata.name) = false →
      ∃ g, (groupDaoCreate st freshId gdata).2 = Except.ok g ∧ g.id = freshId ∧
        g.name = gdata.name ∧
        (groupDaoCreate st freshId gdata).1.groups.getD [] = st.groups.getD [] ++ [g]) ∧
    ((st.users.getD []).any (fun x => x.username == un) = true →
      userDaoCreateWithHashedPassword st hash un pw adm
        = (st, Except.error ("User " ++ un ++ " already exists"))) ∧
    ((st.users.getD []).any (fun x => x.username == un) = false →
      ∃ e, (userDaoCreateWithHashedPassword st hash un pw adm).2 = Except.ok e ∧
        e.username = un ∧
        (userDaoCreateWithHashedPassword st hash un pw adm).1.users.getD []
          = st.users.getD [] ++ [e]) := by
  refine ⟨?_, ?_, ?_, ?_, ?_, ?_⟩
  · intro h
    simp [serverDaoCreate, h]
  · intro h
    refine ⟨ServerConfigWithName.mk data.name
      { data.config with
        enabled := some (data.config.enabled.getD true),
        owner := some (data.config.owner.getD "admin") }, ?_, rfl, ?_⟩
    · simp [serverDaoCreate, h]
    · simp [serverDaoCreate, h, serverGetAll_saveAll]
  · intro h
    simp [groupDaoCreate, h]
  · intro h
    refine ⟨IGroup.mk freshId gdata.name gdata.description gdata.servers
      (some (gdata.owner.getD "admin")), ?_, rfl, rfl, ?_⟩
    · simp [groupDaoCreate, h]
    · simp [groupDaoCreate, h]
  · intro h
    simp [userDaoCreateWithHashedPassword, h]
  · intro h
    refine ⟨IUser.mk un (hash pw) (some adm), ?_, rfl, ?_⟩
    · simp [userDaoCreateWithHashedPassword, h]
    · simp [userDaoCreateWithHashedPassword, h]

/-- Witness for C10: duplicate and fresh create calls against a
one-entry store for each DAO. -/
theorem spec_c10_witness :
    (serverDaoCreate
        (StoredSettings.mk (some [IUser.mk "u1" "pw" none])
          (some [("a", ServerConfig.mk none none none none none)])
          (some [IGroup.mk "id1" "grp" none [] none]) none none)
        (ServerConfigWithName.mk "a" (ServerConfig.mk none none none none none))
      = (StoredSettings.mk (some [IUser.mk "u1" "pw" none])
          (some [("a", ServerConfig.mk none none none none none)])
          (some [IGroup.mk "id1" "grp" none [] none]) none none,
         Except.error ("Server " ++ "a" ++ " already exists"))) ∧
    (∃ e, (serverDaoCreate
        (StoredSettings.mk (some [IUser.mk "u1" "pw" none])
          (some [("a", ServerConfig.mk none none none none none)])
          (some [IGroup.mk "id1" "grp" none [] none]) none none)
        (ServerConfigWithName.mk "b" (ServerConfig.mk none none none none none))).2
        = Except.ok e ∧ e.name = "b" ∧
      serverGetAll (serverDaoCreate
        (StoredSettings.mk (some [IUser.mk "u1" "pw" none])
          (some [("a", ServerConfig.mk none none none none none)])
          (some [IGroup.mk "id1" "grp" none [] none]) none none)
        (ServerConfigWithName.mk "b" (ServerConfig.mk none none none none none))).1
        = serverGetAll (StoredSettings.mk (some [IUser.mk "u1" "pw" none])
          (some [("a", ServerConfig.mk none none none none none)])
          (some [IGroup.mk "id1" "grp" none [] none]) none none) ++ [e]) ∧
    (groupDaoCreate
        (StoredSettings.mk (some [IUser.mk "u1" "pw" none])
          (some [("a", ServerConfig.mk none none none none none)])
          (some [IGroup.mk "id1" "grp" none [] none]) none none)
        "id9" (GroupCreateData.mk "grp" none [] none)
      = (StoredSettings.mk (some [IUser.mk "u1" "pw" none])
          (some [("a", ServerConfig.mk none none none none none)])
          (some [IGroup.mk "id1" "grp" none [] none]) none none,
         Except.error ("Group with name " ++ "grp" ++ " already exists"))) ∧
    (∃ g, (groupDaoCreate
        (StoredSettings.mk (some [IUser.mk "u1" "pw" none])
          (some [("a", ServerConfig.mk none none none none none)])
          (some [IGroup.mk "id1" "grp" none [] none]) none none)
        "id9" (GroupCreateData.mk "g2" none [] none)).2 = Except.ok g ∧
      g.id = "id9" ∧ g.name = "g2" ∧
      (groupDaoCreate
        (StoredSettings.mk (some [IUser.mk "u1" "pw" none])
          (some [("a", ServerConfig.mk none none none none none)])
          (some [IGroup.mk "id1" "grp" none [] none]) none none)
        "id9" (GroupCreateData.mk "g2" none [] none)).1.groups.getD []
        = (StoredSettings.mk (some [IUser.mk "u1" "pw" none])
          (some [("a", ServerConfig.mk none none none none none)])
          (some [IGroup.mk "id1" "grp" none [] none]) none none).groups.getD [] ++ [g]) ∧
    (userDaoCreateWithHashedPassword
        (StoredSettings.mk (some [IUser.mk "u1" "pw" none])
          (some [("a", ServerConfig.mk none none none none none)])
          (some [IGroup.mk "id1" "grp" none [] none]) none none)
        (fun s => s) "u1" "x" false
      = (StoredSettings.mk (some [IUser.mk "u1" "pw" none])
          (some [("a", ServerConfig.mk none none none none none)])
          (some [IGroup.mk "id1" "grp" none [] none]) none none,
         Except.error ("User " ++ "u1" ++ " already exists"))) ∧
    (∃ e, (userDaoCreateWithHashedPassword
        (StoredSettings.mk (some [IUser.mk "u1" "pw" none])
          (some [("a", ServerConfig.mk none none none none none)])
          (some [IGroup.mk "id1" "grp" none [] none]) none none)
        (fun s => s) "u2" "x" false).2 = Except.ok e ∧ e.username = "u2" ∧
      (userDaoCreateWithHashedPassword
        (StoredSettings.mk (some [IUser.mk "u1" "pw" none])
          (some [("a", ServerConfig.mk none none none none none)])
          (some [IGroup.mk "id1" "grp" none [] none]) none none)
        (fun s => s) "u2" "x" false).1.users.getD []
        = (StoredSettings.mk (some [IUser.mk "u1" "pw" none])
          (some [("a", ServerConfig.mk none none none none none)])
          (some [IGroup.mk "id1" "grp" none [] none]) none none).users.getD [] ++ [e]) :=
  ⟨(spec_c10_theorem
      (StoredSettings.mk (some [IUser.mk "u1" "pw" none])
        (some [("a", ServerConfig.mk none none none none none)])
        (some [IGroup.mk "id1" "grp" none [] none]) none none)
      (ServerConfigWithName.mk "a" (ServerConfig.mk none none none none none))
      "id9" (GroupCreateData.mk "grp" none [] none) (fun s => s) "u1" "x" false).1 rfl,
   (spec_c10_theorem
      (StoredSettings.mk (some [IUser.mk "u1" "pw" none])
        (some [("a", ServerConfig.mk none none none none none)])
        (some [IGroup.mk "id1" "grp" none [] none]) none none)
      (ServerConfigWithName.mk "b" (ServerConfig.mk none none none none none))
      "id9" (GroupCreateData.mk "grp" none [] none) (fun s => s) "u1" "x" false).2.1 rfl,
   (spec_c10_theorem
      (StoredSettings.mk (some [IUser.mk "u1" "pw" none])
        (some [("a", ServerConfig.mk none none none none none)])
        (some [IGroup.mk "id1" "grp" none [] none]) none none)
      (ServerConfigWithName.mk "a" (ServerConfig.mk none none none none none))
      "id9" (GroupCreateData.mk "grp" none [] none) (fun s => s) "u1" "x" false).2.2.1 rfl,
   (spec_c10_theorem
      (StoredSettings.mk (some [IUser.mk "u1" "pw" none])
        (some [("a", ServerConfig.mk none none none none none)])
        (some [IGroup.mk "id1" "grp" none [] none]) none none)
      (ServerConfigWithName.mk "a" (ServerConfig.mk none none none none none))
      "id9" (GroupCreateData.mk "g2" none [] none) (fun s => s) "u1" "x" false).2.2.2.1 rfl,
   (spec_c10_theorem
      (StoredSettings.mk (some [IUser.mk "u1" "pw" none])
        (some [("a", ServerConfig.mk none none none none none)])
        (some [IGroup.mk "id1" "grp" none [] none]) none none)
      (ServerConfigWithName.mk "a" (ServerConfig.mk none none none none none))
      "id9" (GroupCreateData.mk "grp" none [] none) (fun s => s) "u1" "x" false).2.2.2.2.1 rfl,
   (spec_c10_theorem
      (StoredSettings.mk (some [IUser.mk "u1" "pw" none])
        (some [("a", ServerConfig.mk none none none none none)])
        (some [IGroup.mk "id1" "grp" none [] none]) none none)
      (ServerConfigWithName.mk "a" (ServerConfig.mk none none none none none))
      "id9" (GroupCreateData.mk "grp" none [] none) (fun s => s) "u2" "x" false).2.2.2.2.2 rfl⟩

-- `DaoConfigService` (settings assembly and per-user filtering).

/-- The settings object assembled and returned by
`DaoConfigService.loadSettings`. -/
structure McpSettingsView where
  users : List IUser
  mcpServers : List (String × ServerConfig)
  groups : List IGroup
  systemConfig : SystemConfig
  userConfigs : List (String × UserConfig)
  deriving DecidableEq

/-- `DaoConfigService.loadSettings` (lines 31-53) before user filtering:
each section is read through its DAO (`findAll`/`get`/`getAll`, i.e. the
stored section or its empty default) and the server list is keyed back
into an object. -/
def assembleSettings (st : StoredSettings) : McpSettingsView :=
  { users := st.users.getD [],
    mcpServers := (serverGetAll st).map (fun s => (s.name, s.config)),
    groups := st.groups.getD [],
    systemConfig := st.systemConfig.getD [],
    userConfigs := st.userConfigs.getD [] }

/-- `DaoConfigService.filterSettingsForUser` (lines 162-187): a
non-admin user sees only the servers and groups they own or that have no
owner, no users, an empty system configuration, and only their own user
configuration entry. -/
def filterSettingsForUser (settings : McpSettingsView) (user : IUser) : McpSettingsView :=
  if user.isAdmin == some true then settings
  else
    { users := [],
      mcpServers := settings.mcpServers.filter
        (fun p => p.2.owner == some user.username || p.2.owner == none),
      groups := settings.groups.filter
        (fun g => g.owner == some user.username || g.owner == none),
      systemConfig := [],
      userConfigs := [(user.username, (lookupAssoc settings.userConfigs user.username).getD [])] }

/-- `DaoConfigService.loadSettings` (lines 31-61): assemble the view and
apply the per-user filter when a non-admin user is given (JavaScript
truthiness: `isAdmin` is truthy exactly when it is `true`). -/
def daoLoadSettings (st : StoredSettings) (user : Option IUser) : McpSettingsView :=
  match user with
  | some u =>
    if u.isAdmin == some true then assembleSettings st
    else filterSettingsForUser (assembleSettings st) u
  | none => assembleSettings st

theorem assembleSettings_mcpServers (st : StoredSettings) :
    (assembleSettings st).mcpServers = st.mcpServers.getD [] := by
  show ((st.mcpServers.getD []).map (fun p => ServerConfigWithName.mk p.1 p.2)).map
      (fun s => (s.name, s.config)) = st.mcpServers.getD []
  rw [List.map_map]
  have h : ((fun s : ServerConfigWithName => (s.name, s.config))
      ∘ (fun p : String × ServerConfig => ServerConfigWithName.mk p.1 p.2)) = id :=
    funext fun p => rfl
  rw [h, List.map_id]

/-- C7: `DaoConfigService.loadSettings` with a non-admin user returns
exactly the servers and groups owned by that user or ownerless, an empty
user list, an empty system configuration, and only the user's own
configuration entry; with an admin user or no user it returns the
settings unfiltered. -/
theorem spec_c7_theorem (st : StoredSettings) (u : IUser) :
    (¬u.isAdmin = some true →
      (∀ n c, (n, c) ∈ (daoLoadSettings st (some u)).mcpServers ↔
        ((n, c) ∈ st.mcpServers.getD [] ∧
          (c.owner = some u.username ∨ c.owner = none))) ∧
      (∀ g, g ∈ (daoLoadSettings st (some u)).groups ↔
        (g ∈ st.groups.getD [] ∧ (g.owner = some u.username ∨ g.owner = none))) ∧
      (daoLoadSettings st (some u)).users = [] ∧
      (daoLoadSettings st (some u)).systemConfig = [] ∧
      (daoLoadSettings st (some u)).userConfigs
        = [(u.username, (lookupAssoc (st.userConfigs.getD []) u.username).getD [])]) ∧
    (u.isAdmin = some true → daoLoadSettings st (some u) = assembleSettings st) ∧
    (daoLoadSettings st none = assembleSettings st) := by
  refine ⟨?_, ?_, rfl⟩
  · intro hadm
    have hb : (u.isAdmin == some true) = false := by
      cases hx : u.isAdmin == some true with
      | true => exact absurd (eq_of_beq hx) hadm
      | false => rfl
    have hload : daoLoadSettings st (some u)
        = filterSettingsForUser (assembleSettings st) u := by
      simp only [daoLoadSettings]
      rw [hb]
      simp
    have hfil : filterSettingsForUser (assembleSettings st) u
        = { users := [],
            mcpServers := (assembleSettings st).mcpServers.filter
              (fun p => p.2.owner == some u.username || p.2.owner == none),
            groups := (assembleSettings st).groups.filter
              (fun g => g.owner == some u.username || g.owner == none),
            systemConfig := [],
            userConfigs := [(u.username,
              (lookupAssoc (assembleSettings st).userConfigs u.username).getD [])] } := by
      unfold filterSettingsForUser
      rw [hb]
      simp
    rw [hload, hfil]
    refine ⟨?_, ?_, rfl, rfl, rfl⟩
    · intro n c
      rw [assembleSettings_mcpServers]
      simp [List.mem_filter]
    · intro g
      simp [assembleSettings, List.mem_filter]
  · intro hadm
    simp only [daoLoadSettings]
    rw [show (u.isAdmin == some true) = true from by rw [hadm]; simp]
    simp

/-- Witness for C7: a store with owned, foreign and ownerless servers
and groups, read by a non-admin and by an admin user. -/
theorem spec_c7_witness :
    (("a", ServerConfig.mk none none none none (some "alice"))
        ∈ (daoLoadSettings
          (StoredSettings.mk (some [IUser.mk "root" "h" (some true)])
            (some [("a", ServerConfig.mk none none none none (some "alice")),
                   ("b", ServerConfig.mk none none none none (some "bob")),
                   ("c", ServerConfig.mk none none none none none)])
            (some [IGroup.mk "id1" "grp" none [] (some "bob")])
            (some [("k", "v")]) (some [("alice", [("x", "y")])]))
          (some (IUser.mk "alice" "p" (some false)))).mcpServers ↔
      (("a", ServerConfig.mk none none none none (some "alice"))
          ∈ (StoredSettings.mk (some [IUser.mk "root" "h" (some true)])
            (some [("a", ServerConfig.mk none none none none (some "alice")),
                   ("b", ServerConfig.mk none none none none (some "bob")),
                   ("c", ServerConfig.mk none none none none none)])
            (some [IGroup.mk "id1" "grp" none [] (some "bob")])
            (some [("k", "v")]) (some [("alice", [("x", "y")])])).mcpServers.getD [] ∧
        ((ServerConfig.mk none none none none (some "alice")).owner = some "alice" ∨
         (ServerConfig.mk none none none none (some "alice")).owner = none))) ∧
    ((daoLoadSettings
        (StoredSettings.mk (some [IUser.mk "root" "h" (some true)])
          (some [("a", ServerConfig.mk none none none none (some "alice")),
                 ("b", ServerConfig.mk none none none none (some "bob")),
                 ("c", ServerConfig.mk none none none none none)])
          (some [IGroup.mk "id1" "grp" none [] (some "bob")])
          (some [("k", "v")]) (some [("alice", [("x", "y")])]))
        (some (IUser.mk "alice" "p" (some false)))).users = []) ∧
    ((daoLoadSettings
        (StoredSettings.mk (some [IUser.mk "root" "h" (some true)])
          (some [("a", ServerConfig.mk none none none none (some "alice")),
                 ("b", ServerConfig.mk none none none none (some "bob")),
                 ("c", ServerConfig.mk none none none none none)])
          (some [IGroup.mk "id1" "grp" none [] (some "bob")])
          (some [("k", "v")]) (some [("alice", [("x", "y")])]))
        (some (IUser.mk "alice" "p" (some false)))).systemConfig = []) ∧
    (daoLoadSettings
        (StoredSettings.mk (some [IUser.mk "root" "h" (some true)])
          (some [("a", ServerConfig.mk none none none none (some "alice")),
                 ("b", ServerConfig.mk none none none none (some "bob")),
                 ("c", ServerConfig.mk none none none none none)])
          (some [IGroup.mk "id1" "grp" none [] (some "bob")])
          (some [("k", "v")]) (some [("alice", [("x", "y")])]))
        (some (IUser.mk "root" "h" (some true)))
      = assembleSettings
        (StoredSettings.mk (some [IUser.mk "root" "h" (some true)])
          (some [("a", ServerConfig.mk none none none none (some "alice")),
                 ("b", ServerConfig.mk none none none none (some "bob")),
                 ("c", ServerConfig.mk none none none none none)])
          (some [IGroup.mk "id1" "grp" none [] (some "bob")])
          (some [("k", "v")]) (some [("alice", [("x", "y")])]))) :=
  ⟨((spec_c7_theorem
      (StoredSettings.mk (some [IUser.mk "root" "h" (some true)])
        (some [("a", ServerConfig.mk none none none none (some "alice")),
               ("b", ServerConfig.mk none none none none (some "bob")),
               ("c", ServerConfig.mk none none none none none)])
        (some [IGroup.mk "id1" "grp" none [] (some "bob")])
        (some [("k", "v")]) (some [("alice", [("x", "y")])]))
      (IUser.mk "alice" "p" (some false))).1 (by decide)).1 "a"
      (ServerConfig.mk none none none none (some "alice")),
   ((spec_c7_theorem
      (StoredSettings.mk (some [IUser.mk "root" "h" (some true)])
        (some [("a", ServerConfig.mk none none none none (some "alice")),
               ("b", ServerConfig.mk none none none none (some "bob")),
               ("c", ServerConfig.mk none none none none none)])
        (some [IGroup.mk "id1" "grp" none [] (some "bob")])
        (some [("k", "v")]) (some [("alice", [("x", "y")])]))
      (IUser.mk "alice" "p" (some false))).1 (by decide)).2.2.1,
   ((spec_c7_theorem
      (StoredSettings.mk (some [IUser.mk "root" "h" (some true)])
        (some [("a", ServerConfig.mk none none none none (some "alice")),
               ("b", ServerConfig.mk none none none none (some "bob")),
               ("c", ServerConfig.mk none none none none none)])
        (some [IGroup.mk "id1" "grp" none [] (some "bob")])
        (some [("k", "v")]) (some [("alice", [("x", "y")])]))
      (IUser.mk "alice" "p" (some false))).1 (by decide)).2.2.2.1,
   (spec_c7_theorem
      (StoredSettings.mk (some [IUser.mk "root" "h" (some true)])
        (some [("a", ServerConfig.mk none none none none (some "alice")),
               ("b", ServerConfig.mk none none none none (some "bob")),
               ("c", ServerConfig.mk none none none none none)])
        (some [IGroup.mk "id1" "grp" none [] (some "bob")])
        (some [("k", "v")]) (some [("alice", [("x", "y")])]))
      (IUser.mk "root" "h" (some true))).2.1 rfl⟩

-- The OpenAPI tool-execution endpoint.

/-- The normalized dispatch outcome envelope (spec section 4.6/7): a
success payload or a typed failure the caller can branch on. -/
inductive DispatchOutcome where
  | ok (payload : String) : DispatchOutcome
  | notFound : DispatchOutcome
  | disabled : DispatchOutcome
  deriving DecidableEq

/-- Modelled from the spec: `handleCallToolRequest` lives in
`src/services/mcpService.ts`, which is not among the provided sources.
Per the spec, an explicit-server dispatch resolves the capability on
that server's live entry (the controller passes the bare tool name and
the handler prepends the `<serverName>-` prefix, see the comment at
`openApiController.ts` line 196); a missing server or capability yields
`NotFound`; "dispatch with server scope and a disabled capability always
yields `Disabled`, never silently succeeds"; otherwise the call is
forwarded to the upstream connection, abstracted here as the function
argument `upstream`. -/
def handleCallToolRequest (upstream : String → String → String)
    (servers : List ServerInfo) (serverName toolName : String) : DispatchOutcome :=
  match servers.find? (fun s => s.name == serverName) with
  | none => DispatchOutcome.notFound
  | some s =>
    match s.tools.find?
        (fun t => t.name == serverName ++ "-" ++ toolName || t.name == toolName) with
    | none => DispatchOutcome.notFound
    | some t =>
      if t.enabled == some false then DispatchOutcome.disabled
      else DispatchOutcome.ok (upstream serverName toolName)

/-- `executeToolViaOpenAPI` (`openApiController.ts` lines 167-217):
the endpoint forwards the server-scoped call to
`handleCallToolRequest`; the schema-driven conversion of query
parameters (lines 174-191) only reshapes the opaque arguments and is
dropped here. -/
def executeToolViaOpenAPI (upstream : String → String → String)
    (servers : List ServerInfo) (serverName toolName : String) : DispatchOutcome :=
  handleCallToolRequest upstream servers serverName toolName

/-- C2: a server-scoped dispatch of a disabled tool yields the typed
`Disabled` failure for every possible upstream behaviour — in
particular the upstream tool is never invoked and the call never
silently succeeds. -/
theorem spec_c2_theorem (servers : List ServerInfo) (serverName toolName : String)
    (s : ServerInfo) (t : Tool)
    (hs : servers.find? (fun x => x.name == serverName) = some s)
    (ht : s.tools.find?
      (fun x => x.name == serverName ++ "-" ++ toolName || x.name == toolName) = some t)
    (hdis : t.enabled = some false) :
    ∀ upstream, executeToolViaOpenAPI upstream servers serverName toolName
      = DispatchOutcome.disabled := by
  intro upstream
  unfold executeToolViaOpenAPI handleCallToolRequest
  rw [hs]
  dsimp only
  rw [ht]
  dsimp only
  rw [hdis]
  simp

/-- Witness for C2: a connected server with one disabled tool. -/
theorem spec_c2_witness :
    executeToolViaOpenAPI (fun _ _ => "payload")
      [ServerInfo.mk "a" "connected" [Tool.mk "a-t" (some false)]] "a" "t"
      = DispatchOutcome.disabled :=
  spec_c2_theorem [ServerInfo.mk "a" "connected" [Tool.mk "a-t" (some false)]] "a" "t"
    (ServerInfo.mk "a" "connected" [Tool.mk "a-t" (some false)])
    (Tool.mk "a-t" (some false)) (by decide) (by decide) rfl (fun _ _ => "payload")
